import Mathlib

/-!
# terraform-provider-mimirtool: configuration resolution and Alertmanager lifecycle

A shallow embedding of `internal/provider/provider.go` (the provider `Configure`
callback) and `internal/provider/resource_alertmanager.go` (the `Create`, `Read`,
`Update` and `Delete` callbacks of the Alertmanager resource).

Stateful Go code is rendered as explicit state passing: every callback takes the
response object it mutates and returns the mutated response together with the
trace of externally visible effects (log records, client construction, backend
calls).  Collaborators that live outside the repository (process environment,
`mimirtool.New`, the backend client methods, the host's decoding of the
configuration and its acceptance of a new state) are parameters.
-/

namespace Mimirtool

/-! ## Plugin-framework values -/

/-- Framework string value (`types.String`): null, unknown, or a known string. -/
inductive TfString where
  | null
  | unknown
  | value (s : String)
  deriving DecidableEq, Repr

namespace TfString

/-- Method `IsNull` of `types.String`. -/
def IsNull : TfString → Bool
  | null => true
  | _ => false

/-- Method `IsUnknown` of `types.String`. -/
def IsUnknown : TfString → Bool
  | unknown => true
  | _ => false

/-- Method `ValueString` of `types.String`: the known string, or the empty string
for null and unknown. -/
def ValueString : TfString → String
  | value s => s
  | _ => ""

end TfString

/-- Framework boolean value (`types.Bool`): null, unknown, or a known boolean. -/
inductive TfBool where
  | null
  | unknown
  | value (b : Bool)
  deriving DecidableEq, Repr

namespace TfBool

/-- Method `IsNull` of `types.Bool`. -/
def IsNull : TfBool → Bool
  | null => true
  | _ => false

/-- Method `ValueBool` of `types.Bool`: the known boolean, or false for null and
unknown. -/
def ValueBool : TfBool → Bool
  | value b => b
  | _ => false

end TfBool

/-! ## Diagnostics -/

/-- Severity of a diagnostic. -/
inductive Severity where
  | Error
  | Warning
  deriving DecidableEq, Repr

/-- A diagnostic: severity, summary, detail, and the root attribute it is scoped
to (`path.Root(name)`) when it is an attribute diagnostic. -/
structure Diagnostic where
  severity : Severity
  summary : String
  detail : String
  attrPath : Option String
  deriving DecidableEq, Repr

/-- The framework's `diag.Diagnostics` collection. -/
abbrev Diagnostics := List Diagnostic

namespace Diagnostics

/-- Method `HasError`: some diagnostic has error severity. -/
def HasError (ds : Diagnostics) : Bool :=
  ds.any (fun d => decide (d.severity = Severity.Error))

/-- Method `Append`: adds each given diagnostic unless an equal one is already
present. -/
def Append (ds : Diagnostics) (more : Diagnostics) : Diagnostics :=
  more.foldl (fun acc d => if d ∈ acc then acc else acc ++ [d]) ds

/-- Method `AddError`: appends an error diagnostic without attribute path. -/
def AddError (ds : Diagnostics) (summary detail : String) : Diagnostics :=
  Append ds [{ severity := Severity.Error, summary := summary, detail := detail,
               attrPath := none }]

/-- Method `AddAttributeError`: appends an error diagnostic scoped to an attribute. -/
def AddAttributeError (ds : Diagnostics) (root : String) (summary detail : String) :
    Diagnostics :=
  Append ds [{ severity := Severity.Error, summary := summary, detail := detail,
               attrPath := some root }]

end Diagnostics

/-! ## Process environment and the standard library -/

/-- The process environment: a variable is unset (`none`) or holds a string. -/
abbrev Environ := String → Option String

/-- Go `os.Getenv`: the value of the variable, empty when it is unset. -/
def os.Getenv (env : Environ) (key : String) : String :=
  (env key).getD ""

/-- Go `strconv.NumError`, the error value of a failed conversion. -/
structure strconv.NumError where
  Func : String
  Num : String
  Err : String
  deriving DecidableEq, Repr

/-- Go `strconv.ParseBool`: accepts 1, t, T, TRUE, true, True, 0, f, F, FALSE,
false, False; any other input yields false together with a syntax error. -/
def strconv.ParseBool (str : String) : Bool × Option strconv.NumError :=
  if str = "1" ∨ str = "t" ∨ str = "T" ∨ str = "true" ∨ str = "TRUE" ∨ str = "True" then
    (true, none)
  else if str = "0" ∨ str = "f" ∨ str = "F" ∨ str = "false" ∨ str = "FALSE"
      ∨ str = "False" then
    (false, none)
  else
    (false, some { Func := "ParseBool", Num := str, Err := "invalid syntax" })

/-! ## Structured logging (`tflog`) -/

/-- The part of a `context.Context` that `tflog` reads: the fields attached to the
logger and the field keys whose values are masked. -/
structure LogCtx where
  fields : List (String × String)
  maskedKeys : List String
  deriving DecidableEq, Repr

/-- Log level of an emitted record. -/
inductive LogLevel where
  | Debug
  | Info
  deriving DecidableEq, Repr

/-- An emitted log record: the fields are those that reach the sink, after masking. -/
structure LogRecord where
  level : LogLevel
  msg : String
  fields : List (String × String)
  deriving DecidableEq, Repr

/-- Helper `tflog.SetField`: attaches a field to the logger of the context,
replacing an earlier value of the same key. -/
def tflog.SetField (ctx : LogCtx) (key value : String) : LogCtx :=
  { ctx with fields := ctx.fields.filter (fun kv => decide (kv.1 ≠ key)) ++ [(key, value)] }

/-- Helper `tflog.MaskFieldValuesWithFieldKeys`: from now on the values of the
given field keys are replaced by asterisks in every record. -/
def tflog.MaskFieldValuesWithFieldKeys (ctx : LogCtx) (keys : List String) : LogCtx :=
  { ctx with maskedKeys := ctx.maskedKeys ++ keys }

/-- The record a `tflog` call emits: context fields followed by the additional
fields of the call, with masked keys rewritten. -/
def tflog.record (level : LogLevel) (ctx : LogCtx) (msg : String)
    (additional : List (String × String)) : LogRecord :=
  { level := level
    msg := msg
    fields := (ctx.fields ++ additional).map
      (fun kv => if kv.1 ∈ ctx.maskedKeys then (kv.1, "***") else kv) }

/-- Call `tflog.Debug`. -/
def tflog.Debug (ctx : LogCtx) (msg : String) (additional : List (String × String)) :
    LogRecord :=
  tflog.record LogLevel.Debug ctx msg additional

/-- Call `tflog.Info`. -/
def tflog.Info (ctx : LogCtx) (msg : String) (additional : List (String × String)) :
    LogRecord :=
  tflog.record LogLevel.Info ctx msg additional

/-! ## The remote API client -/

/-- Go `tls.ClientConfig` of dskit, restricted to the fields the provider sets. -/
structure tls.ClientConfig where
  CAPath : String
  CertPath : String
  KeyPath : String
  InsecureSkipVerify : Bool
  deriving DecidableEq, Repr

/-- Go `mimirtool.Config`, restricted to the fields the provider sets (every other
field keeps its zero value). -/
structure mimirtool.Config where
  AuthToken : String
  User : String
  Key : String
  Address : String
  ID : String
  TLS : tls.ClientConfig
  deriving DecidableEq, Repr

/-- The client handle `*mimirtool.MimirClient`, seen through the two methods the
resource calls.  An error is represented by its `Error()` text, `none` is `nil`. -/
structure MimirClient where
  CreateAlertmanagerConfig : String → List (String × String) → Option String
  DeleteAlermanagerConfig : Option String

/-! ## Provider configuration -/

/-- The provider configuration model, one framework value per schema attribute. -/
structure alertmanagerProviderModelV0 where
  Address : TfString
  Tenant_id : TfString
  Api_user : TfString
  Api_key : TfString
  Auth_token : TfString
  Tls_key_path : TfString
  Tls_cert_path : TfString
  Tls_ca_path : TfString
  Insecure_skip_verify : TfBool
  Prometheus_http_prefix : TfString
  Alertmanager_http_prefix : TfString
  deriving DecidableEq, Repr

/-- The provider `ConfigureRequest`: the typed configuration that `req.Config.Get`
decodes into the model, and the diagnostics that decoding returns. -/
structure ConfigureRequest where
  Config : alertmanagerProviderModelV0
  GetDiags : Diagnostics

/-- The provider `ConfigureResponse`. -/
structure ConfigureResponse where
  Diagnostics : Diagnostics
  DataSourceData : Option MimirClient
  ResourceData : Option MimirClient

/-- The response the host hands to `Configure`: no diagnostics, no data. -/
def ConfigureResponse.fresh : ConfigureResponse :=
  { Diagnostics := [], DataSourceData := none, ResourceData := none }

/-- Externally visible effects of the provider `Configure`, in program order. -/
inductive ConfigureEvent where
  | log (r : LogRecord)
  | newClient (cfg : mimirtool.Config)
  deriving DecidableEq, Repr

/-- The local variables of `Configure` once the environment defaults and the
configuration overrides have been applied (provider.go lines 123 to 221). -/
structure ConfigureLocals where
  address : String
  tenantID : String
  apiUser : String
  apiKey : String
  authToken : String
  tlsKeyPath : String
  tlsCertPath : String
  tlsCAPath : String
  insecureSkipVerify : String
  insecureSkipVerifyBool : Bool
  err : Option strconv.NumError
  prometheusHTTPPrefix : String
  alertmanagerHTTPPrefix : String
  deriving DecidableEq, Repr

namespace mimirtoolProvider

/-- Lines 123 to 221 of `Configure`: every variable is first read from the
environment and then overridden by the configuration value when that is not null. -/
def resolveLocals (providerConfig : alertmanagerProviderModelV0) (env : Environ) :
    ConfigureLocals :=
  let address := os.Getenv env "MIMIRTOOL_ADDRESS"
  let address := if address = "" then os.Getenv env "MIMIR_ADDRESS" else address
  let tenantID := os.Getenv env "MIMIRTOOL_TENANT_ID"
  let tenantID := if address = "" then os.Getenv env "MIMIR_TENANT_ID" else tenantID
  let apiUser := os.Getenv env "MIMIRTOOL_API_USER"
  let apiUser := if apiUser = "" then os.Getenv env "MIMIR_API_USER" else apiUser
  let apiKey := os.Getenv env "MIMIRTOOL_API_KEY"
  let apiKey := if apiKey = "" then os.Getenv env "MIMIR_API_KEY" else apiKey
  let authToken := os.Getenv env "MIMIRTOOL_AUTH_TOKEN"
  let authToken := if authToken = "" then os.Getenv env "MIMIR_AUTH_TOKEN" else authToken
  let tlsKeyPath := os.Getenv env "MIMIRTOOL_TLS_KEY_PATH"
  let tlsKeyPath := if tlsKeyPath = "" then os.Getenv env "MIMIR_TLS_KEY_PATH" else tlsKeyPath
  let tlsCertPath := os.Getenv env "MIMIRTOOL_TLS_CERT_PATH"
  let tlsCertPath :=
    if tlsCertPath = "" then os.Getenv env "MIMIR_TLS_CERT_PATH" else tlsCertPath
  let tlsCAPath := os.Getenv env "MIMIRTOOL_TLS_CA_PATH"
  let tlsCAPath := if tlsCAPath = "" then os.Getenv env "MIMIR_TLS_CA_PATH" else tlsCAPath
  let insecureSkipVerify := os.Getenv env "MIMIRTOOL_INSECURE_SKIP_VERIFY"
  let insecureSkipVerify :=
    if insecureSkipVerify = "" then os.Getenv env "MIMIR_INSECURE_SKIP_VERIFY"
    else insecureSkipVerify
  let prometheusHTTPPrefix := os.Getenv env "MIMIRTOOL_PROMETHEUS_HTTP_PREFIX"
  let prometheusHTTPPrefix :=
    if prometheusHTTPPrefix = "" then os.Getenv env "MIMIR_PROMETHEUS_HTTP_PREFIX"
    else prometheusHTTPPrefix
  let alertmanagerHTTPPrefix := os.Getenv env "MIMIRTOOL_ALERTMANAGER_HTTP_PREFIX"
  let alertmanagerHTTPPrefix :=
    if alertmanagerHTTPPrefix = "" then os.Getenv env "MIMIR_ALERTMANAGER_HTTP_PREFIX"
    else alertmanagerHTTPPrefix
  let address :=
    if !providerConfig.Address.IsNull then providerConfig.Address.ValueString else address
  let tenantID :=
    if !providerConfig.Tenant_id.IsNull then providerConfig.Tenant_id.ValueString
    else tenantID
  let apiUser :=
    if !providerConfig.Api_user.IsNull then providerConfig.Api_user.ValueString else apiUser
  let apiKey :=
    if !providerConfig.Api_key.IsNull then providerConfig.Api_key.ValueString else apiKey
  let authToken :=
    if !providerConfig.Auth_token.IsNull then providerConfig.Auth_token.ValueString
    else authToken
  let tlsKeyPath :=
    if !providerConfig.Tls_key_path.IsNull then providerConfig.Tls_key_path.ValueString
    else tlsKeyPath
  let tlsCertPath :=
    if !providerConfig.Tls_cert_path.IsNull then providerConfig.Tls_cert_path.ValueString
    else tlsCertPath
  let tlsCAPath :=
    if !providerConfig.Tls_ca_path.IsNull then providerConfig.Tls_ca_path.ValueString
    else tlsCAPath
  let parsed := strconv.ParseBool insecureSkipVerify
  let insecureSkipVerifyBool :=
    if !providerConfig.Insecure_skip_verify.IsNull then
      providerConfig.Insecure_skip_verify.ValueBool
    else parsed.1
  let prometheusHTTPPrefix :=
    if !providerConfig.Prometheus_http_prefix.IsNull then
      providerConfig.Prometheus_http_prefix.ValueString
    else prometheusHTTPPrefix
  let alertmanagerHTTPPrefix :=
    if !providerConfig.Alertmanager_http_prefix.IsNull then
      providerConfig.Alertmanager_http_prefix.ValueString
    else alertmanagerHTTPPrefix
  { address := address
    tenantID := tenantID
    apiUser := apiUser
    apiKey := apiKey
    authToken := authToken
    tlsKeyPath := tlsKeyPath
    tlsCertPath := tlsCertPath
    tlsCAPath := tlsCAPath
    insecureSkipVerify := insecureSkipVerify
    insecureSkipVerifyBool := insecureSkipVerifyBool
    err := parsed.2
    prometheusHTTPPrefix := prometheusHTTPPrefix
    alertmanagerHTTPPrefix := alertmanagerHTTPPrefix }

/-- The argument of `mimirtool.New` (provider.go lines 249 to 261). -/
def clientConfig (l : ConfigureLocals) : mimirtool.Config :=
  { AuthToken := l.authToken
    User := l.apiUser
    Key := l.apiKey
    Address := l.address
    ID := l.tenantID
    TLS :=
      { CAPath := l.tlsCAPath
        CertPath := l.tlsCertPath
        KeyPath := l.tlsKeyPath
        InsecureSkipVerify := l.insecureSkipVerifyBool } }

/-- Detail text of the unknown-address diagnostic. -/
def unknownAddressDetail : String :=
  "The provider cannot create the HashiCups API client as there is an unknown configuration value for the HashiCups API host. " ++
    "Either target apply the source of the value first, set the value statically in the configuration, or use the HASHICUPS_HOST environment variable."

/-- Detail text of the missing-address diagnostic. -/
def missingAddressDetail : String :=
  "The provider cannot create the Mimirtool API client as there is a missing or empty value for the Mimirtool API address. " ++
    "Set the address value in the configuration or use the MIMIRTOOL_ADDRESS (or MIMIR_ADDRESS) environment variable. " ++
    "If either is already set, ensure the value is not empty."

/-- The diagnostic `Configure` records for an unknown address. -/
def unknownAddressDiagnostic : Diagnostic :=
  { severity := Severity.Error
    summary := "Unknown HashiCups API Host"
    detail := unknownAddressDetail
    attrPath := some "address" }

/-- The diagnostic `Configure` records for a missing or empty address. -/
def missingAddressDiagnostic : Diagnostic :=
  { severity := Severity.Error
    summary := "Missing Mimir URL"
    detail := missingAddressDetail
    attrPath := some "address" }

/-- Detail text of the client-construction diagnostic for the error text `e`. -/
def clientErrorDetail (e : String) : String :=
  "An unexpected error occurred when creating the Mimirtool API client. " ++
    "If the error is not clear, please contact the provider developers.\n\n" ++
    "Mimirtool Client Error: " ++ e

/-- The provider callback `Configure`.  `New` is `mimirtool.New`, `env` the process
environment, `ctx` the logging context the host passes in, `resp` the response
object that the callback mutates.  Returns the mutated response and the effects. -/
def Configure (New : mimirtool.Config → Except String MimirClient) (env : Environ)
    (ctx : LogCtx) (req : ConfigureRequest) (resp : ConfigureResponse) :
    ConfigureResponse × List ConfigureEvent :=
  let events := [ConfigureEvent.log (tflog.Debug ctx "Configuring provider" [])]
  let providerConfig := req.Config
  let diags := req.GetDiags
  let resp := { resp with Diagnostics := Diagnostics.Append resp.Diagnostics diags }
  if Diagnostics.HasError resp.Diagnostics then (resp, events) else
  let resp :=
    if providerConfig.Address.IsUnknown then
      { resp with
        Diagnostics := Diagnostics.AddAttributeError resp.Diagnostics "address"
          "Unknown HashiCups API Host" unknownAddressDetail }
    else resp
  if Diagnostics.HasError resp.Diagnostics then (resp, events) else
  let l := resolveLocals providerConfig env
  let resp :=
    if l.address = "" then
      { resp with
        Diagnostics := Diagnostics.AddAttributeError resp.Diagnostics "address"
          "Missing Mimir URL" missingAddressDetail }
    else resp
  if Diagnostics.HasError resp.Diagnostics then (resp, events) else
  let ctx := tflog.SetField ctx "address" l.address
  let ctx := tflog.SetField ctx "tenant_id" l.tenantID
  let ctx := tflog.SetField ctx "auth_token" l.authToken
  let ctx := tflog.MaskFieldValuesWithFieldKeys ctx ["auth_token"]
  let events := events ++ [ConfigureEvent.log (tflog.Debug ctx "Creating Mimirtool client" [])]
  let cfg := clientConfig l
  let events := events ++ [ConfigureEvent.newClient cfg]
  match New cfg with
  | Except.error err =>
    ({ resp with
        Diagnostics := Diagnostics.AddError resp.Diagnostics
          "Unable to Create Mimirtool API Client" (clientErrorDetail err) }, events)
  | Except.ok client =>
    ({ resp with DataSourceData := some client, ResourceData := some client },
      events ++ [ConfigureEvent.log
        (tflog.Info ctx "Configured Mimirtool client" [("success", "true")])])

end mimirtoolProvider

/-! ## The Alertmanager resource -/

/-- Framework map value (`types.Map`).  With the string element type it is null,
unknown, or known elements, each of which is itself a framework string; `zero` is
the Go zero value `types.Map{}`, which is null as well but carries no element
type. -/
inductive TfMap where
  | null
  | unknown
  | value (elems : List (String × TfString))
  | zero
  deriving DecidableEq, Repr

/-- The diagnostic the framework's reflection returns when a value cannot be
converted into the Go target (summary as in the framework, detail abbreviated). -/
def conversionError (what : String) : Diagnostic :=
  { severity := Severity.Error
    summary := "Value Conversion Error"
    detail := what
    attrPath := none }

/-- Conversion of the known elements of a map into Go strings: fails at an element
that is null or unknown, because a Go string can hold neither. -/
def decodeElements : List (String × TfString) → Option (List (String × String))
  | [] => some []
  | (k, TfString.value s) :: rest => (decodeElements rest).map (fun t => (k, s) :: t)
  | (_, _) :: _ => none

/-- Method `ElementsAs(ctx, &target, false)` of `types.Map` for a target of type
`map[string]string`: a null map (the zero value is null too) sets the target to the
zero (empty) map, an unknown map or an element that is not a known string is an
error that leaves the target as it was, and otherwise the target becomes the
decoded mapping. -/
def TfMap.ElementsAs (m : TfMap) (target : List (String × String)) :
    List (String × String) × Diagnostics :=
  match m with
  | TfMap.null => ([], [])
  | TfMap.zero => ([], [])
  | TfMap.unknown => (target, [conversionError "Received unknown value"])
  | TfMap.value elems =>
    match decodeElements elems with
    | some t => (t, [])
    | none => (target, [conversionError "Received null or unknown element value"])

/-- The resource model, one framework value per schema attribute. -/
structure alertmanagerResourceModelV0 where
  ID : TfString
  Config_yaml : TfString
  Templates_config_yaml : TfMap
  deriving DecidableEq, Repr

/-- The zero value of the model, as declared by `var plan alertmanagerResourceModelV0`:
the two strings are null, and the map is the zero `types.Map{}` without element
type. -/
def alertmanagerResourceModelV0.zero : alertmanagerResourceModelV0 :=
  { ID := TfString.null, Config_yaml := TfString.null, Templates_config_yaml := TfMap.zero }

/-- The persisted state of one resource (`tfsdk.State`): absent, or the stored model. -/
abbrev State := Option alertmanagerResourceModelV0

/-- The diagnostic with which the framework rejects a map without element type for
the attribute `templates_config_yaml`, whose schema type is a map of strings
(summary and path as in the framework, detail abbreviated). -/
def untypedMapError : Diagnostic :=
  { severity := Severity.Error
    summary := "Value Conversion Error"
    detail := "Expected framework type from provider logic: types.MapType[basetypes.StringType], received: types.MapType[!!! MISSING TYPE !!!]"
    attrPath := some "templates_config_yaml" }

/-- The answer of the host framework when `State.Set` converts a model against the
schema of the resource (`id` and `config_yaml` strings, `templates_config_yaml` a
map with `ElementType: types.StringType`): a map without element type does not
have the schema's type and is rejected; every other model converts. -/
def schemaAccept (val : alertmanagerResourceModelV0) : Diagnostics :=
  if val.Templates_config_yaml = TfMap.zero then [untypedMapError] else []

/-- Method `State.Set(ctx, val)`: `accept` gives the diagnostics with which the host
framework answers the conversion of `val` (`schemaAccept` for the schema of this
resource); the state is replaced by `val` unless those contain an error, and is left
as it was otherwise. -/
def State.Set (accept : alertmanagerResourceModelV0 → Diagnostics) (st : State)
    (val : alertmanagerResourceModelV0) : State × Diagnostics :=
  let diags := accept val
  if Diagnostics.HasError diags then (st, diags) else (some val, diags)

/-- A call made on the backend client. -/
inductive BackendCall where
  | CreateAlertmanagerConfig (cfg : String) (templates : List (String × String))
  | DeleteAlermanagerConfig
  deriving DecidableEq, Repr

/-- The resource implementation, after the resource-level `Configure` has stored the
client handle. -/
structure alertmanagerResource where
  client : MimirClient

/-- Request of `Create`: the plan that `req.Plan.Get` decodes, and the diagnostics
that decoding returns. -/
structure CreateRequest where
  Plan : alertmanagerResourceModelV0
  PlanDiags : Diagnostics

/-- Response of `Create`. -/
structure CreateResponse where
  State : State
  Diagnostics : Diagnostics

/-- Request of `Read`: the prior state. -/
structure ReadRequest where
  State : State

/-- Response of `Read`, which the host pre-populates with the prior state. -/
structure ReadResponse where
  State : State
  Diagnostics : Diagnostics

/-- Request of `Update`: the plan that `req.Plan.Get` decodes, the diagnostics that
decoding returns, and the prior state. -/
structure UpdateRequest where
  Plan : alertmanagerResourceModelV0
  PlanDiags : Diagnostics
  State : State

/-- Response of `Update`, which the host pre-populates with the prior state. -/
structure UpdateResponse where
  State : State
  Diagnostics : Diagnostics

/-- Request of `Delete`: the prior state. -/
structure DeleteRequest where
  State : State

/-- Response of `Delete`, which the host pre-populates with the prior state. -/
structure DeleteResponse where
  State : State
  Diagnostics : Diagnostics

namespace alertmanagerResource

/-- Detail text of the diagnostic `Create` records for the backend error `err`. -/
def createErrorDetail (err : String) : String :=
  "An unexpected error occurred while creating Alertmanager config\n\n+" ++
    ("Original Error: " ++ err)

/-- Detail text of the diagnostic `Delete` records for the backend error `err`. -/
def deleteErrorDetail (err : String) : String :=
  "Original Error: " ++ err

/-- The diagnostic `Create` records for the backend error `err`. -/
def createErrorDiagnostic (err : String) : Diagnostic :=
  { severity := Severity.Error
    summary := "Error creating Alertmanager config"
    detail := createErrorDetail err
    attrPath := none }

/-- The diagnostic `Delete` records for the backend error `err`. -/
def deleteErrorDiagnostic (err : String) : Diagnostic :=
  { severity := Severity.Error
    summary := "Error while deleting Alertmanager configuration"
    detail := deleteErrorDetail err
    attrPath := none }

/-- The model `Delete` hands to `State.Set`: the zero model with the empty string
as id; its map is still the zero map without element type. -/
def deletedModel : alertmanagerResourceModelV0 :=
  { alertmanagerResourceModelV0.zero with ID := TfString.value "" }

/-- The callback `Create`.  `accept` is the host's answer to `resp.State.Set`.
Returns the mutated response and the backend calls made, in order.  (The lines
written with the standard `log` package are not part of the modelled effects.) -/
def Create (r : alertmanagerResource) (accept : alertmanagerResourceModelV0 → Diagnostics)
    (req : CreateRequest) (resp : CreateResponse) : CreateResponse × List BackendCall :=
  let plan := req.Plan
  let diags := req.PlanDiags
  let resp := { resp with Diagnostics := Diagnostics.Append resp.Diagnostics diags }
  if Diagnostics.HasError resp.Diagnostics then (resp, []) else
  let alertmanagerConfig := plan.Config_yaml.ValueString
  let templates : List (String × String) := []
  let decoded := plan.Templates_config_yaml.ElementsAs templates
  let templates := decoded.1
  let diags := decoded.2
  let resp := { resp with Diagnostics := Diagnostics.Append resp.Diagnostics diags }
  if Diagnostics.HasError resp.Diagnostics then (resp, []) else
  let calls := [BackendCall.CreateAlertmanagerConfig alertmanagerConfig templates]
  match r.client.CreateAlertmanagerConfig alertmanagerConfig templates with
  | some err =>
    ({ resp with
        Diagnostics := Diagnostics.AddError resp.Diagnostics
          "Error creating Alertmanager config" (createErrorDetail err) }, calls)
  | none =>
    let plan := { plan with ID := TfString.value "alertmanager" }
    let set := State.Set accept resp.State plan
    ({ resp with
        State := set.1
        Diagnostics := Diagnostics.Append resp.Diagnostics set.2 }, calls)

/-- The callback `Read`: its body is entirely commented out, so it returns with the
response as the host prepared it and calls nothing. -/
def Read (_r : alertmanagerResource) (_req : ReadRequest) (resp : ReadResponse) :
    ReadResponse × List BackendCall :=
  (resp, [])

/-- The callback `Update`: decodes the plan and stores it as the new state. -/
def Update (_r : alertmanagerResource) (accept : alertmanagerResourceModelV0 → Diagnostics)
    (req : UpdateRequest) (resp : UpdateResponse) : UpdateResponse × List BackendCall :=
  let plan := req.Plan
  let resp := { resp with Diagnostics := Diagnostics.Append resp.Diagnostics req.PlanDiags }
  if Diagnostics.HasError resp.Diagnostics then (resp, []) else
  let set := State.Set accept resp.State plan
  ({ resp with
      State := set.1
      Diagnostics := Diagnostics.Append resp.Diagnostics set.2 }, [])

/-- The callback `Delete`: asks the backend to delete the configuration and, when
that succeeds, hands a zero model whose id is the empty string to `State.Set`. -/
def Delete (r : alertmanagerResource) (accept : alertmanagerResourceModelV0 → Diagnostics)
    (_req : DeleteRequest) (resp : DeleteResponse) : DeleteResponse × List BackendCall :=
  let plan := alertmanagerResourceModelV0.zero
  let calls := [BackendCall.DeleteAlermanagerConfig]
  match r.client.DeleteAlermanagerConfig with
  | some err =>
    ({ resp with
        Diagnostics := Diagnostics.AddError resp.Diagnostics
          "Error while deleting Alertmanager configuration" (deleteErrorDetail err) }, calls)
  | none =>
    let plan := { plan with ID := TfString.value "" }
    let set := State.Set accept resp.State plan
    ({ resp with
        State := set.1
        Diagnostics := Diagnostics.Append resp.Diagnostics set.2 }, calls)

end alertmanagerResource

/-! ## Reading the effect traces, and the rules as the specification words them -/

/-- The configurations with which `mimirtool.New` was called, in order. -/
def newClientCalls : List ConfigureEvent → List mimirtool.Config
  | [] => []
  | ConfigureEvent.newClient cfg :: rest => cfg :: newClientCalls rest
  | ConfigureEvent.log _ :: rest => newClientCalls rest

/-- The log records emitted, in order. -/
def logRecords : List ConfigureEvent → List LogRecord
  | [] => []
  | ConfigureEvent.log r :: rest => r :: logRecords rest
  | ConfigureEvent.newClient _ :: rest => logRecords rest

/-- The string an unset configuration attribute falls back to, as the specification
words it: the primary variable when it is non-empty, otherwise the fallback
variable (empty when that is unset too). -/
def envDefault (primary fallback : Option String) : String :=
  match primary with
  | some p => if p = "" then fallback.getD "" else p
  | none => fallback.getD ""

/-- The three-tier precedence as the specification words it: the configuration
value when it is not null, otherwise the primary variable when it is non-empty,
otherwise the fallback variable (empty when that is unset too). -/
def precedence (cfg : TfString) (primary fallback : Option String) : String :=
  if cfg.IsNull = false then cfg.ValueString
  else envDefault primary fallback

/-- The insecure-skip-verify rule as the specification words it: the configuration
boolean when it is not null, otherwise the boolean parsed from the environment
string. -/
def insecureFlag (cfg : TfBool) (primary fallback : Option String) : Bool :=
  if cfg.IsNull = false then cfg.ValueBool
  else (strconv.ParseBool (envDefault primary fallback)).1

/-- The diagnostic `Configure` records when `mimirtool.New` fails with the text `e`. -/
def mimirtoolProvider.clientErrorDiagnostic (e : String) : Diagnostic :=
  { severity := Severity.Error
    summary := "Unable to Create Mimirtool API Client"
    detail := mimirtoolProvider.clientErrorDetail e
    attrPath := none }

/-- The logging context of `Configure` after lines 237 to 240: the address, the
tenant and the auth token are attached, then the auth token key is masked. -/
def mimirtoolProvider.loggingCtx (ctx : LogCtx) (address tenantID authToken : String) :
    LogCtx :=
  let ctx := tflog.SetField ctx "address" address
  let ctx := tflog.SetField ctx "tenant_id" tenantID
  let ctx := tflog.SetField ctx "auth_token" authToken
  tflog.MaskFieldValuesWithFieldKeys ctx ["auth_token"]

/-! ## Concrete inputs used by the witnesses and counterexamples -/

/-- A backend client on which both calls succeed. -/
def okClient : MimirClient :=
  { CreateAlertmanagerConfig := fun _ _ => none
    DeleteAlermanagerConfig := none }

/-- A backend client on which the push fails with the text "boom" and the delete
with the text "gone". -/
def failingClient : MimirClient :=
  { CreateAlertmanagerConfig := fun _ _ => some "boom"
    DeleteAlermanagerConfig := some "gone" }

/-- A client constructor that always succeeds. -/
def okNew : mimirtool.Config → Except String MimirClient :=
  fun _ => Except.ok okClient

/-- A logging context without fields or masks. -/
def emptyCtx : LogCtx :=
  { fields := [], maskedKeys := [] }

/-- A provider configuration in which every attribute is null. -/
def nullProviderConfig : alertmanagerProviderModelV0 :=
  { Address := TfString.null
    Tenant_id := TfString.null
    Api_user := TfString.null
    Api_key := TfString.null
    Auth_token := TfString.null
    Tls_key_path := TfString.null
    Tls_cert_path := TfString.null
    Tls_ca_path := TfString.null
    Insecure_skip_verify := TfBool.null
    Prometheus_http_prefix := TfString.null
    Alertmanager_http_prefix := TfString.null }

/-- An environment that exercises every tier: the address comes from the primary
variable, the API key from the fallback variable only, the API user from both. -/
def tiersEnv : Environ := fun k =>
  if k = "MIMIRTOOL_ADDRESS" then some "http://primary"
  else if k = "MIMIR_ADDRESS" then some "http://fallback"
  else if k = "MIMIR_API_KEY" then some "fallback-key"
  else if k = "MIMIRTOOL_API_USER" then some "primary-user"
  else if k = "MIMIR_API_USER" then some "fallback-user"
  else none

/-- A request whose configuration sets only the API user, decoded without diagnostics. -/
def tiersRequest : ConfigureRequest :=
  { Config := { nullProviderConfig with Api_user := TfString.value "config-user" }
    GetDiags := [] }

/-- An environment with the primary tenant variable only: no address variable and
no fallback tenant variable. -/
def primaryTenantEnv : Environ := fun k =>
  if k = "MIMIRTOOL_TENANT_ID" then some "tenant-a" else none

/-- An environment with a primary address variable and only the fallback tenant
variable. -/
def fallbackTenantEnv : Environ := fun k =>
  if k = "MIMIRTOOL_ADDRESS" then some "http://mimir"
  else if k = "MIMIR_TENANT_ID" then some "tenant-b"
  else none

/-- A request whose configuration sets only the address, decoded without diagnostics. -/
def addressOnlyRequest : ConfigureRequest :=
  { Config := { nullProviderConfig with Address := TfString.value "http://mimir" }
    GetDiags := [] }

/-- A request whose configuration is entirely null, decoded without diagnostics. -/
def nullRequest : ConfigureRequest :=
  { Config := nullProviderConfig
    GetDiags := [] }

/-- A request whose configuration sets the address to the empty string. -/
def emptyAddressRequest : ConfigureRequest :=
  { Config := { nullProviderConfig with Address := TfString.value "" }
    GetDiags := [] }

/-- A request whose configuration address is not yet known. -/
def unknownAddressRequest : ConfigureRequest :=
  { Config := { nullProviderConfig with Address := TfString.unknown }
    GetDiags := [] }

/-- An environment with an address and an insecure-skip-verify string that is not
a boolean. -/
def badBoolEnv : Environ := fun k =>
  if k = "MIMIRTOOL_ADDRESS" then some "http://mimir"
  else if k = "MIMIRTOOL_INSECURE_SKIP_VERIFY" then some "yes please"
  else none

/-- A host that accepts every value handed to `State.Set`. -/
def acceptAll : alertmanagerResourceModelV0 → Diagnostics :=
  fun _ => []

/-- A resource whose backend calls succeed. -/
def okResource : alertmanagerResource :=
  { client := okClient }

/-- A resource whose backend calls fail. -/
def failingResource : alertmanagerResource :=
  { client := failingClient }

/-- A plan for creation: the id is still unknown, the configuration is a minimal
route, and one template is given. -/
def routePlan : alertmanagerResourceModelV0 :=
  { ID := TfString.unknown
    Config_yaml := TfString.value "route: \x7b\x7d"
    Templates_config_yaml := TfMap.value [("default.tmpl", TfString.value "body")] }

/-- The state a successful creation of `routePlan` leaves behind. -/
def routeState : alertmanagerResourceModelV0 :=
  { routePlan with ID := TfString.value "alertmanager" }

/-- A plan for an update of `routeState`: the configuration changed, and the
computed id is unknown in the plan. -/
def changedPlan : alertmanagerResourceModelV0 :=
  { ID := TfString.unknown
    Config_yaml := TfString.value "route: \x7breceiver: ops\x7d"
    Templates_config_yaml := TfMap.value [("default.tmpl", TfString.value "body")] }

/-- A creation request for `routePlan`, decoded without diagnostics. -/
def routeCreateRequest : CreateRequest :=
  { Plan := routePlan, PlanDiags := [] }

/-- An update request from `routeState` to `changedPlan`, decoded without diagnostics. -/
def changedUpdateRequest : UpdateRequest :=
  { Plan := changedPlan, PlanDiags := [], State := some routeState }

/-- The response the host hands to `Create`: no state, no diagnostics. -/
def CreateResponse.fresh : CreateResponse :=
  { State := none, Diagnostics := [] }

/-- The response the host hands to `Update` or `Delete` of `routeState`. -/
def UpdateResponse.ofRoute : UpdateResponse :=
  { State := some routeState, Diagnostics := [] }

/-- The response the host hands to `Delete` of `routeState`. -/
def DeleteResponse.ofRoute : DeleteResponse :=
  { State := some routeState, Diagnostics := [] }

/-- The request the host sends to `Read` or `Delete` of `routeState`. -/
def ReadRequest.ofRoute : ReadRequest :=
  { State := some routeState }

/-- The response the host hands to `Read` of `routeState`. -/
def ReadResponse.ofRoute : ReadResponse :=
  { State := some routeState, Diagnostics := [] }

/-- The response the host hands to `Read` of a resource that is already absent. -/
def ReadResponse.absent : ReadResponse :=
  { State := none, Diagnostics := [] }

/-- A plan without templates: the templates map is null. -/
def noTemplatesPlan : alertmanagerResourceModelV0 :=
  { ID := TfString.unknown
    Config_yaml := TfString.value "route: \x7b\x7d"
    Templates_config_yaml := TfMap.null }

/-- A creation request for `noTemplatesPlan`, decoded without diagnostics. -/
def noTemplatesCreateRequest : CreateRequest :=
  { Plan := noTemplatesPlan, PlanDiags := [] }

/-- A plan whose templates hold one known body and one body that is not yet known. -/
def unknownTemplatePlan : alertmanagerResourceModelV0 :=
  { ID := TfString.unknown
    Config_yaml := TfString.value "route: \x7b\x7d"
    Templates_config_yaml :=
      TfMap.value [("default.tmpl", TfString.value "body"), ("late.tmpl", TfString.unknown)] }

/-- A creation request for `unknownTemplatePlan`, decoded without diagnostics. -/
def unknownTemplateCreateRequest : CreateRequest :=
  { Plan := unknownTemplatePlan, PlanDiags := [] }

/-- A logging context in which the host already attached a field of its own. -/
def hostCtx : LogCtx :=
  { fields := [("tf_provider_addr", "registry.terraform.io/ldvc/mimirtool")], maskedKeys := [] }

/-- An environment with an address, a tenant, and credentials in both tiers. -/
def secretEnvA : Environ := fun k =>
  if k = "MIMIRTOOL_ADDRESS" then some "http://mimir"
  else if k = "MIMIR_TENANT_ID" then some "tenant-b"
  else if k = "MIMIRTOOL_AUTH_TOKEN" then some "token-one"
  else if k = "MIMIR_API_KEY" then some "key-one"
  else none

/-- The same environment as `secretEnvA` with other credentials. -/
def secretEnvB : Environ := fun k =>
  if k = "MIMIRTOOL_ADDRESS" then some "http://mimir"
  else if k = "MIMIR_TENANT_ID" then some "tenant-b"
  else if k = "MIMIR_AUTH_TOKEN" then some "token-two"
  else if k = "MIMIRTOOL_API_KEY" then some "key-two"
  else none

/-- A client constructor that always fails with the text "bad ca file". -/
def failingNew : mimirtool.Config → Except String MimirClient :=
  fun _ => Except.error "bad ca file"

/-- A request whose configuration sets the Alertmanager path prefix to "/am-one". -/
def prefixRequestOne : ConfigureRequest :=
  { Config := { nullProviderConfig with Alertmanager_http_prefix := TfString.value "/am-one" }
    GetDiags := [] }

/-- A request whose configuration sets the Alertmanager path prefix to "/am-two". -/
def prefixRequestTwo : ConfigureRequest :=
  { Config := { nullProviderConfig with Alertmanager_http_prefix := TfString.value "/am-two" }
    GetDiags := [] }

end Mimirtool

/-! # Theorems -/

namespace Mimirtool

/-! ## Diagnostics -/

theorem Diagnostics.Append_nil (ds : Diagnostics) : Diagnostics.Append ds [] = ds := rfl

theorem Diagnostics.HasError_iff (ds : Diagnostics) :
    Diagnostics.HasError ds = true ↔ ∃ d ∈ ds, d.severity = Severity.Error := by
  simp [Diagnostics.HasError]

theorem Diagnostics.mem_Append (ds more : Diagnostics) (d : Diagnostic) :
    d ∈ Diagnostics.Append ds more ↔ d ∈ ds ∨ d ∈ more := by
  induction more generalizing ds with
  | nil => simp [Diagnostics.Append]
  | cons x xs ih =>
    have step : Diagnostics.Append ds (x :: xs)
        = Diagnostics.Append (if x ∈ ds then ds else ds ++ [x]) xs := rfl
    rw [step, ih]
    by_cases hx : x ∈ ds
    · simp only [hx, if_true, List.mem_cons]
      constructor
      · rintro (h | h)
        · exact Or.inl h
        · exact Or.inr (Or.inr h)
      · rintro (h | h | h)
        · exact Or.inl h
        · exact Or.inl (h ▸ hx)
        · exact Or.inr h
    · simp only [hx, if_false, List.mem_append, List.mem_singleton, List.mem_cons]
      tauto

theorem Diagnostics.HasError_Append (ds more : Diagnostics) :
    Diagnostics.HasError (Diagnostics.Append ds more)
      = (Diagnostics.HasError ds || Diagnostics.HasError more) := by
  rw [Bool.eq_iff_iff]
  simp only [Bool.or_eq_true, Diagnostics.HasError_iff, Diagnostics.mem_Append]
  constructor
  · rintro ⟨d, hd | hd, he⟩
    · exact Or.inl ⟨d, hd, he⟩
    · exact Or.inr ⟨d, hd, he⟩
  · rintro (⟨d, hd, he⟩ | ⟨d, hd, he⟩)
    · exact ⟨d, Or.inl hd, he⟩
    · exact ⟨d, Or.inr hd, he⟩

theorem Diagnostics.Append_singleton_of_not_mem (ds : Diagnostics) (d : Diagnostic)
    (h : d ∉ ds) : Diagnostics.Append ds [d] = ds ++ [d] := by
  simp [Diagnostics.Append, h]

theorem Diagnostics.not_mem_of_error_free (ds : Diagnostics) (d : Diagnostic)
    (hds : Diagnostics.HasError ds = false) (hd : d.severity = Severity.Error) : d ∉ ds := by
  intro hmem
  have : Diagnostics.HasError ds = true := (Diagnostics.HasError_iff ds).2 ⟨d, hmem, hd⟩
  rw [hds] at this
  exact Bool.noConfusion this

theorem Diagnostics.HasError_AddAttributeError (ds : Diagnostics) (root summary detail : String) :
    Diagnostics.HasError (Diagnostics.AddAttributeError ds root summary detail) = true := by
  rw [Diagnostics.AddAttributeError, Diagnostics.HasError_Append]
  simp [Diagnostics.HasError]

theorem Diagnostics.HasError_AddError (ds : Diagnostics) (summary detail : String) :
    Diagnostics.HasError (Diagnostics.AddError ds summary detail) = true := by
  rw [Diagnostics.AddError, Diagnostics.HasError_Append]
  simp [Diagnostics.HasError]

/-! ## Resolution of the provider settings -/

namespace mimirtoolProvider

theorem precedence_eq (c : TfString) (primary fallback : Option String) :
    (if (!c.IsNull) = true then c.ValueString
      else if primary.getD "" = "" then fallback.getD "" else primary.getD "")
      = precedence c primary fallback := by
  cases c <;> cases primary <;>
    simp [precedence, envDefault, TfString.IsNull, TfString.ValueString]

theorem resolveLocals_address (c : alertmanagerProviderModelV0) (env : Environ) :
    (resolveLocals c env).address
      = precedence c.Address (env "MIMIRTOOL_ADDRESS") (env "MIMIR_ADDRESS") := by
  rw [← precedence_eq]; rfl

theorem resolveLocals_apiUser (c : alertmanagerProviderModelV0) (env : Environ) :
    (resolveLocals c env).apiUser
      = precedence c.Api_user (env "MIMIRTOOL_API_USER") (env "MIMIR_API_USER") := by
  rw [← precedence_eq]; rfl

theorem resolveLocals_apiKey (c : alertmanagerProviderModelV0) (env : Environ) :
    (resolveLocals c env).apiKey
      = precedence c.Api_key (env "MIMIRTOOL_API_KEY") (env "MIMIR_API_KEY") := by
  rw [← precedence_eq]; rfl

theorem resolveLocals_authToken (c : alertmanagerProviderModelV0) (env : Environ) :
    (resolveLocals c env).authToken
      = precedence c.Auth_token (env "MIMIRTOOL_AUTH_TOKEN") (env "MIMIR_AUTH_TOKEN") := by
  rw [← precedence_eq]; rfl

theorem resolveLocals_tlsKeyPath (c : alertmanagerProviderModelV0) (env : Environ) :
    (resolveLocals c env).tlsKeyPath
      = precedence c.Tls_key_path (env "MIMIRTOOL_TLS_KEY_PATH") (env "MIMIR_TLS_KEY_PATH") := by
  rw [← precedence_eq]; rfl

theorem resolveLocals_tlsCertPath (c : alertmanagerProviderModelV0) (env : Environ) :
    (resolveLocals c env).tlsCertPath
      = precedence c.Tls_cert_path (env "MIMIRTOOL_TLS_CERT_PATH")
          (env "MIMIR_TLS_CERT_PATH") := by
  rw [← precedence_eq]; rfl

theorem resolveLocals_tlsCAPath (c : alertmanagerProviderModelV0) (env : Environ) :
    (resolveLocals c env).tlsCAPath
      = precedence c.Tls_ca_path (env "MIMIRTOOL_TLS_CA_PATH") (env "MIMIR_TLS_CA_PATH") := by
  rw [← precedence_eq]; rfl

theorem address_empty_of_unknown (c : alertmanagerProviderModelV0) (env : Environ)
    (h : c.Address.IsUnknown = true) : (resolveLocals c env).address = "" := by
  rw [resolveLocals_address]
  cases hc : c.Address <;> simp_all [precedence, envDefault, TfString.IsNull,
    TfString.IsUnknown, TfString.ValueString]

/-- When decoding reported no error and the resolved address is not empty, the
callback runs to the client constructor: the response before the call still has the
decoded diagnostics only, and the constructor is called once. -/
theorem Configure_reaches_New (New : mimirtool.Config → Except String MimirClient)
    (env : Environ) (ctx : LogCtx) (req : ConfigureRequest) (resp : ConfigureResponse)
    (hdec : Diagnostics.HasError (Diagnostics.Append resp.Diagnostics req.GetDiags) = false)
    (haddr : (resolveLocals req.Config env).address ≠ "") :
    newClientCalls (Configure New env ctx req resp).2
      = [clientConfig (resolveLocals req.Config env)] := by
  have hunk : req.Config.Address.IsUnknown = false := by
    cases h : req.Config.Address.IsUnknown
    · rfl
    · exact absurd (address_empty_of_unknown req.Config env h) haddr
  unfold Configure
  simp only [hdec, hunk, haddr, if_false, Bool.false_eq_true]
  cases New (clientConfig (resolveLocals req.Config env)) <;>
    simp [newClientCalls]

end mimirtoolProvider

/-! ## C1: precedence of the string settings -/

namespace mimirtoolProvider

/-- C1: when decoding reported no error and the resolved address is not empty,
Configure calls the client constructor exactly once, and in the configuration it
passes, each of address, api_user, api_key, auth_token, tls_key_path, tls_cert_path
and tls_ca_path is the provider-config value if that is not null, otherwise the
MIMIRTOOL variable if non-empty, otherwise the MIMIR variable (empty when unset). -/
theorem C1_string_settings_precedence (New : mimirtool.Config → Except String MimirClient)
    (env : Environ) (ctx : LogCtx) (req : ConfigureRequest) (resp : ConfigureResponse)
    (hdec : Diagnostics.HasError (Diagnostics.Append resp.Diagnostics req.GetDiags) = false)
    (haddr : precedence req.Config.Address (env "MIMIRTOOL_ADDRESS") (env "MIMIR_ADDRESS")
      ≠ "") :
    ∃ cfg : mimirtool.Config,
      newClientCalls (Configure New env ctx req resp).2 = [cfg] ∧
      cfg.Address
        = precedence req.Config.Address (env "MIMIRTOOL_ADDRESS") (env "MIMIR_ADDRESS") ∧
      cfg.User
        = precedence req.Config.Api_user (env "MIMIRTOOL_API_USER") (env "MIMIR_API_USER") ∧
      cfg.Key
        = precedence req.Config.Api_key (env "MIMIRTOOL_API_KEY") (env "MIMIR_API_KEY") ∧
      cfg.AuthToken
        = precedence req.Config.Auth_token (env "MIMIRTOOL_AUTH_TOKEN")
            (env "MIMIR_AUTH_TOKEN") ∧
      cfg.TLS.KeyPath
        = precedence req.Config.Tls_key_path (env "MIMIRTOOL_TLS_KEY_PATH")
            (env "MIMIR_TLS_KEY_PATH") ∧
      cfg.TLS.CertPath
        = precedence req.Config.Tls_cert_path (env "MIMIRTOOL_TLS_CERT_PATH")
            (env "MIMIR_TLS_CERT_PATH") ∧
      cfg.TLS.CAPath
        = precedence req.Config.Tls_ca_path (env "MIMIRTOOL_TLS_CA_PATH")
            (env "MIMIR_TLS_CA_PATH") := by
  rw [← resolveLocals_address] at haddr
  refine ⟨clientConfig (resolveLocals req.Config env),
    Configure_reaches_New New env ctx req resp hdec haddr, ?_, ?_, ?_, ?_, ?_, ?_, ?_⟩
  · exact resolveLocals_address _ _
  · exact resolveLocals_apiUser _ _
  · exact resolveLocals_apiKey _ _
  · exact resolveLocals_authToken _ _
  · exact resolveLocals_tlsKeyPath _ _
  · exact resolveLocals_tlsCertPath _ _
  · exact resolveLocals_tlsCAPath _ _

/-- C1 at a concrete input: address from the primary variable although the fallback
is set too, API user from the configuration although both variables are set, API
key from the fallback variable because the primary is unset. -/
theorem C1_string_settings_precedence_witness :
    Diagnostics.HasError
        (Diagnostics.Append ConfigureResponse.fresh.Diagnostics tiersRequest.GetDiags) = false ∧
    precedence tiersRequest.Config.Address (tiersEnv "MIMIRTOOL_ADDRESS")
        (tiersEnv "MIMIR_ADDRESS") ≠ "" ∧
    ∃ cfg : mimirtool.Config,
      newClientCalls (Configure okNew tiersEnv emptyCtx tiersRequest
        ConfigureResponse.fresh).2 = [cfg] ∧
      cfg.Address
        = precedence tiersRequest.Config.Address (tiersEnv "MIMIRTOOL_ADDRESS")
            (tiersEnv "MIMIR_ADDRESS") ∧
      cfg.User
        = precedence tiersRequest.Config.Api_user (tiersEnv "MIMIRTOOL_API_USER")
            (tiersEnv "MIMIR_API_USER") ∧
      cfg.Key
        = precedence tiersRequest.Config.Api_key (tiersEnv "MIMIRTOOL_API_KEY")
            (tiersEnv "MIMIR_API_KEY") ∧
      cfg.AuthToken
        = precedence tiersRequest.Config.Auth_token (tiersEnv "MIMIRTOOL_AUTH_TOKEN")
            (tiersEnv "MIMIR_AUTH_TOKEN") ∧
      cfg.TLS.KeyPath
        = precedence tiersRequest.Config.Tls_key_path (tiersEnv "MIMIRTOOL_TLS_KEY_PATH")
            (tiersEnv "MIMIR_TLS_KEY_PATH") ∧
      cfg.TLS.CertPath
        = precedence tiersRequest.Config.Tls_cert_path (tiersEnv "MIMIRTOOL_TLS_CERT_PATH")
            (tiersEnv "MIMIR_TLS_CERT_PATH") ∧
      cfg.TLS.CAPath
        = precedence tiersRequest.Config.Tls_ca_path (tiersEnv "MIMIRTOOL_TLS_CA_PATH")
            (tiersEnv "MIMIR_TLS_CA_PATH") :=
  ⟨by decide, by decide,
    C1_string_settings_precedence okNew tiersEnv emptyCtx tiersRequest ConfigureResponse.fresh
      (by decide) (by decide)⟩

end mimirtoolProvider

/-! ## C2: the tenant fallback -/

namespace mimirtoolProvider

/-- What the code computes for the tenant: the fallback variable replaces the
primary one when the environment address is empty, not when the primary tenant
variable is empty. -/
theorem resolveLocals_tenantID (c : alertmanagerProviderModelV0) (env : Environ) :
    (resolveLocals c env).tenantID
      = if c.Tenant_id.IsNull = false then c.Tenant_id.ValueString
        else if precedence TfString.null (env "MIMIRTOOL_ADDRESS") (env "MIMIR_ADDRESS") = ""
          then os.Getenv env "MIMIR_TENANT_ID"
          else os.Getenv env "MIMIRTOOL_TENANT_ID" := by
  rw [← precedence_eq]
  cases h : c.Tenant_id <;>
    simp [resolveLocals, h, TfString.IsNull, TfString.ValueString, os.Getenv]

/-- C2, evaluated on the code: with the tenant null in the configuration, (a) a
non-empty MIMIRTOOL_TENANT_ID is discarded when no address variable is set, and (b)
MIMIR_TENANT_ID is not consulted when an address variable is set although
MIMIRTOOL_TENANT_ID is unset; the claimed rule gives the other value both times. -/
theorem C2_tenant_fallback_keyed_on_address :
    (newClientCalls (Configure okNew primaryTenantEnv emptyCtx addressOnlyRequest
        ConfigureResponse.fresh).2).map (fun cfg => cfg.ID) = [""] ∧
    precedence addressOnlyRequest.Config.Tenant_id (primaryTenantEnv "MIMIRTOOL_TENANT_ID")
        (primaryTenantEnv "MIMIR_TENANT_ID") = "tenant-a" ∧
    (newClientCalls (Configure okNew fallbackTenantEnv emptyCtx nullRequest
        ConfigureResponse.fresh).2).map (fun cfg => cfg.ID) = [""] ∧
    precedence nullRequest.Config.Tenant_id (fallbackTenantEnv "MIMIRTOOL_TENANT_ID")
        (fallbackTenantEnv "MIMIR_TENANT_ID") = "tenant-b" := by
  decide

end mimirtoolProvider

/-! ## C3, C4, C5: the address guards and the insecure-skip-verify flag -/

namespace mimirtoolProvider

theorem Configure_decode_error (New : mimirtool.Config → Except String MimirClient)
    (env : Environ) (ctx : LogCtx) (req : ConfigureRequest) (resp : ConfigureResponse)
    (hdec : Diagnostics.HasError (Diagnostics.Append resp.Diagnostics req.GetDiags) = true) :
    Configure New env ctx req resp
      = ({ resp with Diagnostics := Diagnostics.Append resp.Diagnostics req.GetDiags },
          [ConfigureEvent.log (tflog.Debug ctx "Configuring provider" [])]) := by
  unfold Configure
  simp only [hdec, if_true]

theorem Configure_unknown_address (New : mimirtool.Config → Except String MimirClient)
    (env : Environ) (ctx : LogCtx) (req : ConfigureRequest) (resp : ConfigureResponse)
    (hdec : Diagnostics.HasError (Diagnostics.Append resp.Diagnostics req.GetDiags) = false)
    (hunk : req.Config.Address.IsUnknown = true) :
    Configure New env ctx req resp
      = ({ resp with
            Diagnostics := Diagnostics.Append
              (Diagnostics.Append resp.Diagnostics req.GetDiags) [unknownAddressDiagnostic] },
          [ConfigureEvent.log (tflog.Debug ctx "Configuring provider" [])]) := by
  have herr := Diagnostics.HasError_AddAttributeError
    (Diagnostics.Append resp.Diagnostics req.GetDiags) "address"
    "Unknown HashiCups API Host" unknownAddressDetail
  unfold Configure
  simp only [hdec, hunk, herr, if_true, if_false, Bool.false_eq_true]
  rfl

theorem Configure_missing_address (New : mimirtool.Config → Except String MimirClient)
    (env : Environ) (ctx : LogCtx) (req : ConfigureRequest) (resp : ConfigureResponse)
    (hdec : Diagnostics.HasError (Diagnostics.Append resp.Diagnostics req.GetDiags) = false)
    (hunk : req.Config.Address.IsUnknown = false)
    (haddr : (resolveLocals req.Config env).address = "") :
    Configure New env ctx req resp
      = ({ resp with
            Diagnostics := Diagnostics.Append
              (Diagnostics.Append resp.Diagnostics req.GetDiags) [missingAddressDiagnostic] },
          [ConfigureEvent.log (tflog.Debug ctx "Configuring provider" [])]) := by
  have herr := Diagnostics.HasError_AddAttributeError
    (Diagnostics.Append resp.Diagnostics req.GetDiags) "address"
    "Missing Mimir URL" missingAddressDetail
  unfold Configure
  simp only [hdec, hunk, haddr, herr, if_true, if_false, Bool.false_eq_true]
  rfl

/-- C3: whenever the resolved address is the empty string, Configure never calls
the client constructor and leaves ResourceData and DataSourceData as the host
passed them (unset on the fresh response); and when decoding reported no error it
records an error diagnostic scoped to the address attribute, which is the
missing-address diagnostic unless the configured address is unknown. -/
theorem C3_empty_address_aborts (New : mimirtool.Config → Except String MimirClient)
    (env : Environ) (ctx : LogCtx) (req : ConfigureRequest) (resp : ConfigureResponse)
    (haddr : precedence req.Config.Address (env "MIMIRTOOL_ADDRESS") (env "MIMIR_ADDRESS")
      = "") :
    newClientCalls (Configure New env ctx req resp).2 = [] ∧
    (Configure New env ctx req resp).1.ResourceData = resp.ResourceData ∧
    (Configure New env ctx req resp).1.DataSourceData = resp.DataSourceData ∧
    (Diagnostics.HasError (Diagnostics.Append resp.Diagnostics req.GetDiags) = false →
      (∃ d ∈ (Configure New env ctx req resp).1.Diagnostics,
        d.severity = Severity.Error ∧ d.attrPath = some "address") ∧
      (req.Config.Address.IsUnknown = false →
        missingAddressDiagnostic ∈ (Configure New env ctx req resp).1.Diagnostics)) := by
  rw [← resolveLocals_address] at haddr
  cases hdec : Diagnostics.HasError (Diagnostics.Append resp.Diagnostics req.GetDiags)
  · cases hunk : req.Config.Address.IsUnknown
    · rw [Configure_missing_address New env ctx req resp hdec hunk haddr]
      refine ⟨rfl, rfl, rfl, fun _ => ⟨⟨missingAddressDiagnostic, ?_, rfl, rfl⟩, fun _ => ?_⟩⟩
      · exact (Diagnostics.mem_Append _ _ _).2 (Or.inr (List.mem_singleton.2 rfl))
      · exact (Diagnostics.mem_Append _ _ _).2 (Or.inr (List.mem_singleton.2 rfl))
    · rw [Configure_unknown_address New env ctx req resp hdec hunk]
      refine ⟨rfl, rfl, rfl, fun _ => ⟨⟨unknownAddressDiagnostic, ?_, rfl, rfl⟩, fun h => ?_⟩⟩
      · exact (Diagnostics.mem_Append _ _ _).2 (Or.inr (List.mem_singleton.2 rfl))
      · exact Bool.noConfusion h
  · rw [Configure_decode_error New env ctx req resp hdec]
    exact ⟨rfl, rfl, rfl, fun h => Bool.noConfusion h⟩

/-- C3 at a concrete input: the configuration sets the address to the empty string
while MIMIRTOOL_ADDRESS holds a URL; the constructor is not called, no data is set,
and the missing-address diagnostic is recorded. -/
theorem C3_empty_address_aborts_witness :
    precedence emptyAddressRequest.Config.Address (tiersEnv "MIMIRTOOL_ADDRESS")
        (tiersEnv "MIMIR_ADDRESS") = "" ∧
    tiersEnv "MIMIRTOOL_ADDRESS" = some "http://primary" ∧
    newClientCalls (Configure okNew tiersEnv emptyCtx emptyAddressRequest
        ConfigureResponse.fresh).2 = [] ∧
    (Configure okNew tiersEnv emptyCtx emptyAddressRequest
        ConfigureResponse.fresh).1.ResourceData.isNone = true ∧
    (Configure okNew tiersEnv emptyCtx emptyAddressRequest
        ConfigureResponse.fresh).1.DataSourceData.isNone = true ∧
    missingAddressDiagnostic ∈ (Configure okNew tiersEnv emptyCtx emptyAddressRequest
        ConfigureResponse.fresh).1.Diagnostics :=
  have h := C3_empty_address_aborts okNew tiersEnv emptyCtx emptyAddressRequest
    ConfigureResponse.fresh (by decide)
  ⟨by decide, by decide, h.1, by rw [h.2.1]; rfl, by rw [h.2.2.1]; rfl,
    (h.2.2.2 (by decide)).2 (by decide)⟩

/-- C4: when decoding reported no error and the resolved address is not empty,
Configure calls the client constructor exactly once (no abort) with an
insecure-skip-verify flag that is the configuration boolean when that is not null
and otherwise the boolean parsed from MIMIRTOOL_INSECURE_SKIP_VERIFY (from
MIMIR_INSECURE_SKIP_VERIFY when the primary is empty); with a null configuration
value the flag is false whenever that string is empty or fails to parse, and the
only diagnostics in the response are those already present, those of decoding, and
the one for a failed client constructor. -/
theorem C4_insecure_skip_verify (New : mimirtool.Config → Except String MimirClient)
    (env : Environ) (ctx : LogCtx) (req : ConfigureRequest) (resp : ConfigureResponse)
    (hdec : Diagnostics.HasError (Diagnostics.Append resp.Diagnostics req.GetDiags) = false)
    (haddr : precedence req.Config.Address (env "MIMIRTOOL_ADDRESS") (env "MIMIR_ADDRESS")
      ≠ "") :
    ∃ cfg : mimirtool.Config,
      newClientCalls (Configure New env ctx req resp).2 = [cfg] ∧
      cfg.TLS.InsecureSkipVerify
        = insecureFlag req.Config.Insecure_skip_verify
            (env "MIMIRTOOL_INSECURE_SKIP_VERIFY") (env "MIMIR_INSECURE_SKIP_VERIFY") ∧
      (req.Config.Insecure_skip_verify.IsNull = true →
        (envDefault (env "MIMIRTOOL_INSECURE_SKIP_VERIFY")
            (env "MIMIR_INSECURE_SKIP_VERIFY") = "" ∨
          (strconv.ParseBool (envDefault (env "MIMIRTOOL_INSECURE_SKIP_VERIFY")
            (env "MIMIR_INSECURE_SKIP_VERIFY"))).2 ≠ none) →
        cfg.TLS.InsecureSkipVerify = false) ∧
      (∀ d ∈ (Configure New env ctx req resp).1.Diagnostics,
        d ∈ resp.Diagnostics ∨ d ∈ req.GetDiags ∨
          ∃ e, New cfg = Except.error e ∧ d.summary = "Unable to Create Mimirtool API Client") := by
  rw [← resolveLocals_address] at haddr
  have hflag : (clientConfig (resolveLocals req.Config env)).TLS.InsecureSkipVerify
      = insecureFlag req.Config.Insecure_skip_verify
          (env "MIMIRTOOL_INSECURE_SKIP_VERIFY") (env "MIMIR_INSECURE_SKIP_VERIFY") := by
    cases h : req.Config.Insecure_skip_verify <;>
      cases hp : env "MIMIRTOOL_INSECURE_SKIP_VERIFY" <;>
      simp [clientConfig, resolveLocals, insecureFlag, envDefault, h, hp, TfBool.IsNull,
        TfBool.ValueBool, os.Getenv]
  have hunk : req.Config.Address.IsUnknown = false := by
    cases h : req.Config.Address.IsUnknown
    · rfl
    · exact absurd (address_empty_of_unknown req.Config env h) haddr
  refine ⟨clientConfig (resolveLocals req.Config env),
    Configure_reaches_New New env ctx req resp hdec haddr, hflag, ?_, ?_⟩
  · intro hnull hbad
    rw [hflag]
    simp only [insecureFlag, hnull, Bool.true_eq_false, if_false]
    rcases hbad with hempty | hparse
    · rw [hempty]; rfl
    · revert hparse
      unfold strconv.ParseBool
      split
      · intro h; exact absurd rfl h
      · split <;> intro _ <;> rfl
  · intro d hd
    unfold Configure at hd
    simp only [hdec, hunk, haddr, if_false, Bool.false_eq_true] at hd
    cases hnew : New (clientConfig (resolveLocals req.Config env)) with
    | error e =>
      simp only [hnew] at hd
      rcases (Diagnostics.mem_Append _ _ _).1 hd with h | h
      · rcases (Diagnostics.mem_Append _ _ _).1 h with h | h
        · exact Or.inl h
        · exact Or.inr (Or.inl h)
      · refine Or.inr (Or.inr ⟨e, rfl, ?_⟩)
        rw [List.mem_singleton.1 h]
    | ok c =>
      simp only [hnew] at hd
      rcases (Diagnostics.mem_Append _ _ _).1 hd with h | h
      · exact Or.inl h
      · exact Or.inr (Or.inl h)

end mimirtoolProvider

namespace mimirtoolProvider

/-- C4 at a concrete input: the configuration leaves the flag null and
MIMIRTOOL_INSECURE_SKIP_VERIFY holds a string that is not a boolean; the client is
still constructed, with the flag false. -/
theorem C4_insecure_skip_verify_witness :
    Diagnostics.HasError
        (Diagnostics.Append ConfigureResponse.fresh.Diagnostics nullRequest.GetDiags) = false ∧
    precedence nullRequest.Config.Address (badBoolEnv "MIMIRTOOL_ADDRESS")
        (badBoolEnv "MIMIR_ADDRESS") ≠ "" ∧
    ∃ cfg : mimirtool.Config,
      newClientCalls (Configure okNew badBoolEnv emptyCtx nullRequest
        ConfigureResponse.fresh).2 = [cfg] ∧
      cfg.TLS.InsecureSkipVerify
        = insecureFlag nullRequest.Config.Insecure_skip_verify
            (badBoolEnv "MIMIRTOOL_INSECURE_SKIP_VERIFY")
            (badBoolEnv "MIMIR_INSECURE_SKIP_VERIFY") ∧
      (nullRequest.Config.Insecure_skip_verify.IsNull = true →
        (envDefault (badBoolEnv "MIMIRTOOL_INSECURE_SKIP_VERIFY")
            (badBoolEnv "MIMIR_INSECURE_SKIP_VERIFY") = "" ∨
          (strconv.ParseBool (envDefault (badBoolEnv "MIMIRTOOL_INSECURE_SKIP_VERIFY")
            (badBoolEnv "MIMIR_INSECURE_SKIP_VERIFY"))).2 ≠ none) →
        cfg.TLS.InsecureSkipVerify = false) ∧
      (∀ d ∈ (Configure okNew badBoolEnv emptyCtx nullRequest
          ConfigureResponse.fresh).1.Diagnostics,
        d ∈ ConfigureResponse.fresh.Diagnostics ∨ d ∈ nullRequest.GetDiags ∨
          ∃ e, okNew cfg = Except.error e ∧
            d.summary = "Unable to Create Mimirtool API Client") :=
  ⟨by decide, by decide,
    C4_insecure_skip_verify okNew badBoolEnv emptyCtx nullRequest ConfigureResponse.fresh
      (by decide) (by decide)⟩

/-- C5: when decoding reported no error and the configured address is unknown,
Configure records exactly the unknown-address diagnostic, an error scoped to the
address attribute that differs from the missing-address diagnostic (which is not
recorded) and whose detail tells the caller to target apply the source of the value
first or to set the value statically; it never calls the client constructor and
sets no data, whatever the environment holds. -/
theorem C5_unknown_address (New : mimirtool.Config → Except String MimirClient)
    (env : Environ) (ctx : LogCtx) (req : ConfigureRequest) (resp : ConfigureResponse)
    (hdec : Diagnostics.HasError (Diagnostics.Append resp.Diagnostics req.GetDiags) = false)
    (hunk : req.Config.Address.IsUnknown = true) :
    (Configure New env ctx req resp).1.Diagnostics
      = Diagnostics.Append resp.Diagnostics req.GetDiags ++ [unknownAddressDiagnostic] ∧
    unknownAddressDiagnostic.severity = Severity.Error ∧
    unknownAddressDiagnostic.attrPath = some "address" ∧
    unknownAddressDiagnostic.summary ≠ missingAddressDiagnostic.summary ∧
    unknownAddressDiagnostic.detail ≠ missingAddressDiagnostic.detail ∧
    missingAddressDiagnostic ∉ (Configure New env ctx req resp).1.Diagnostics ∧
    (∃ before after : String, unknownAddressDiagnostic.detail
      = before ++ "Either target apply the source of the value first, set the value statically in the configuration" ++ after) ∧
    newClientCalls (Configure New env ctx req resp).2 = [] ∧
    (Configure New env ctx req resp).1.ResourceData = resp.ResourceData ∧
    (Configure New env ctx req resp).1.DataSourceData = resp.DataSourceData := by
  have hnot : unknownAddressDiagnostic ∉ Diagnostics.Append resp.Diagnostics req.GetDiags :=
    Diagnostics.not_mem_of_error_free _ _ hdec rfl
  have hmiss : missingAddressDiagnostic ∉ Diagnostics.Append resp.Diagnostics req.GetDiags :=
    Diagnostics.not_mem_of_error_free _ _ hdec rfl
  rw [Configure_unknown_address New env ctx req resp hdec hunk]
  refine ⟨Diagnostics.Append_singleton_of_not_mem _ _ hnot, rfl, rfl, by decide, by decide,
    ?_, ?_, rfl, rfl, rfl⟩
  · intro h
    rcases (Diagnostics.mem_Append _ _ _).1 h with h | h
    · exact hmiss h
    · exact absurd (List.mem_singleton.1 h) (by decide)
  · exact ⟨"The provider cannot create the HashiCups API client as there is an unknown configuration value for the HashiCups API host. ",
      ", or use the HASHICUPS_HOST environment variable.", rfl⟩

/-- C5 at a concrete input: the address is unknown while MIMIRTOOL_ADDRESS and
MIMIR_ADDRESS both hold a URL. -/
theorem C5_unknown_address_witness :
    Diagnostics.HasError (Diagnostics.Append ConfigureResponse.fresh.Diagnostics
        unknownAddressRequest.GetDiags) = false ∧
    unknownAddressRequest.Config.Address.IsUnknown = true ∧
    tiersEnv "MIMIR_ADDRESS" = some "http://fallback" ∧
    (Configure okNew tiersEnv emptyCtx unknownAddressRequest
        ConfigureResponse.fresh).1.Diagnostics = [unknownAddressDiagnostic] ∧
    newClientCalls (Configure okNew tiersEnv emptyCtx unknownAddressRequest
        ConfigureResponse.fresh).2 = [] :=
  have h := C5_unknown_address okNew tiersEnv emptyCtx unknownAddressRequest
    ConfigureResponse.fresh (by decide) (by decide)
  ⟨by decide, by decide, by decide, h.1, h.2.2.2.2.2.2.2.1⟩

end mimirtoolProvider

/-! ## C6, C7: Create -/

namespace alertmanagerResource

theorem Create_push (r : alertmanagerResource)
    (accept : alertmanagerResourceModelV0 → Diagnostics) (req : CreateRequest)
    (resp : CreateResponse)
    (hplan : Diagnostics.HasError (Diagnostics.Append resp.Diagnostics req.PlanDiags) = false)
    (hdec : Diagnostics.HasError (req.Plan.Templates_config_yaml.ElementsAs []).2 = false) :
    Create r accept req resp
      = (match r.client.CreateAlertmanagerConfig req.Plan.Config_yaml.ValueString
            (req.Plan.Templates_config_yaml.ElementsAs []).1 with
        | some err =>
          ({ State := resp.State
             Diagnostics := Diagnostics.AddError
              (Diagnostics.Append (Diagnostics.Append resp.Diagnostics req.PlanDiags)
                (req.Plan.Templates_config_yaml.ElementsAs []).2)
              "Error creating Alertmanager config" (createErrorDetail err) },
            [BackendCall.CreateAlertmanagerConfig req.Plan.Config_yaml.ValueString
              (req.Plan.Templates_config_yaml.ElementsAs []).1])
        | none =>
          ({ State := (State.Set accept resp.State
                { req.Plan with ID := TfString.value "alertmanager" }).1
             Diagnostics := Diagnostics.Append
              (Diagnostics.Append (Diagnostics.Append resp.Diagnostics req.PlanDiags)
                (req.Plan.Templates_config_yaml.ElementsAs []).2)
              (State.Set accept resp.State
                { req.Plan with ID := TfString.value "alertmanager" }).2 },
            [BackendCall.CreateAlertmanagerConfig req.Plan.Config_yaml.ValueString
              (req.Plan.Templates_config_yaml.ElementsAs []).1])) := by
  have h2 : Diagnostics.HasError
      (Diagnostics.Append (Diagnostics.Append resp.Diagnostics req.PlanDiags)
        (req.Plan.Templates_config_yaml.ElementsAs []).2) = false := by
    rw [Diagnostics.HasError_Append, hplan, hdec]; rfl
  unfold Create
  simp only [hplan, h2, if_false, Bool.false_eq_true]

/-- C6: when the plan decodes without error and the backend push succeeds, Create
calls the backend exactly once, with the plan's config_yaml and the decoded
templates, and records no error; and when the host accepts the new state, that
state has the plan's config_yaml and templates_config_yaml and the id
"alertmanager", a constant that does not depend on the content. -/
theorem C6_create_success (r : alertmanagerResource)
    (accept : alertmanagerResourceModelV0 → Diagnostics) (req : CreateRequest)
    (resp : CreateResponse)
    (hplan : Diagnostics.HasError (Diagnostics.Append resp.Diagnostics req.PlanDiags) = false)
    (hdec : Diagnostics.HasError (req.Plan.Templates_config_yaml.ElementsAs []).2 = false)
    (hpush : r.client.CreateAlertmanagerConfig req.Plan.Config_yaml.ValueString
      (req.Plan.Templates_config_yaml.ElementsAs []).1 = none)
    (hacc : Diagnostics.HasError
      (accept { req.Plan with ID := TfString.value "alertmanager" }) = false) :
    (Create r accept req resp).2
      = [BackendCall.CreateAlertmanagerConfig req.Plan.Config_yaml.ValueString
          (req.Plan.Templates_config_yaml.ElementsAs []).1] ∧
    (Create r accept req resp).1.State
      = some { ID := TfString.value "alertmanager"
               Config_yaml := req.Plan.Config_yaml
               Templates_config_yaml := req.Plan.Templates_config_yaml } ∧
    Diagnostics.HasError (Create r accept req resp).1.Diagnostics = false := by
  have h2 : Diagnostics.HasError
      (Diagnostics.Append (Diagnostics.Append resp.Diagnostics req.PlanDiags)
        (req.Plan.Templates_config_yaml.ElementsAs []).2) = false := by
    rw [Diagnostics.HasError_Append, hplan, hdec]; rfl
  rw [Create_push r accept req resp hplan hdec, hpush]
  refine ⟨rfl, ?_, ?_⟩
  · simp only [State.Set, hacc, if_false, Bool.false_eq_true]
  · simp only [Diagnostics.HasError_Append, h2, State.Set, hacc, if_false,
      Bool.false_eq_true, Bool.or_false]

/-- C6 at a concrete input: a plan with a route and one template on a backend that
accepts the push. -/
theorem C6_create_success_witness :
    (Create okResource acceptAll routeCreateRequest CreateResponse.fresh).2
      = [BackendCall.CreateAlertmanagerConfig "route: \x7b\x7d" [("default.tmpl", "body")]] ∧
    (Create okResource acceptAll routeCreateRequest CreateResponse.fresh).1.State
      = some { ID := TfString.value "alertmanager"
               Config_yaml := TfString.value "route: \x7b\x7d"
               Templates_config_yaml :=
                TfMap.value [("default.tmpl", TfString.value "body")] } ∧
    Diagnostics.HasError
      (Create okResource acceptAll routeCreateRequest CreateResponse.fresh).1.Diagnostics
        = false :=
  C6_create_success okResource acceptAll routeCreateRequest CreateResponse.fresh
    (by decide) (by decide) (by decide) (by decide)

/-- C7: when the plan decodes without error and the backend push returns the error
e, Create records one more diagnostic, an error whose detail ends with the text of
e, and the response state is exactly the state before the call. -/
theorem C7_create_backend_error (r : alertmanagerResource)
    (accept : alertmanagerResourceModelV0 → Diagnostics) (req : CreateRequest)
    (resp : CreateResponse) (e : String)
    (hplan : Diagnostics.HasError (Diagnostics.Append resp.Diagnostics req.PlanDiags) = false)
    (hdec : Diagnostics.HasError (req.Plan.Templates_config_yaml.ElementsAs []).2 = false)
    (hpush : r.client.CreateAlertmanagerConfig req.Plan.Config_yaml.ValueString
      (req.Plan.Templates_config_yaml.ElementsAs []).1 = some e) :
    (Create r accept req resp).1.Diagnostics
      = Diagnostics.Append (Diagnostics.Append resp.Diagnostics req.PlanDiags)
          (req.Plan.Templates_config_yaml.ElementsAs []).2 ++ [createErrorDiagnostic e] ∧
    (createErrorDiagnostic e).severity = Severity.Error ∧
    (∃ before : String, (createErrorDiagnostic e).detail = before ++ e) ∧
    (Create r accept req resp).1.State = resp.State := by
  have h2 : Diagnostics.HasError
      (Diagnostics.Append (Diagnostics.Append resp.Diagnostics req.PlanDiags)
        (req.Plan.Templates_config_yaml.ElementsAs []).2) = false := by
    rw [Diagnostics.HasError_Append, hplan, hdec]; rfl
  have hnot := Diagnostics.not_mem_of_error_free _ (createErrorDiagnostic e) h2 rfl
  rw [Create_push r accept req resp hplan hdec, hpush]
  refine ⟨Diagnostics.Append_singleton_of_not_mem _ _ hnot, rfl, ?_, rfl⟩
  refine ⟨"An unexpected error occurred while creating Alertmanager config\n\n+" ++
    "Original Error: ", ?_⟩
  simp only [createErrorDiagnostic, createErrorDetail, String.append_assoc]

/-- C7 at a concrete input: the backend answers the push with the error "boom",
and the response state stays absent. -/
theorem C7_create_backend_error_witness :
    (Create failingResource acceptAll routeCreateRequest CreateResponse.fresh).1.Diagnostics
      = [createErrorDiagnostic "boom"] ∧
    (createErrorDiagnostic "boom").detail
      = "An unexpected error occurred while creating Alertmanager config\n\n+Original Error: boom" ∧
    (Create failingResource acceptAll routeCreateRequest CreateResponse.fresh).1.State
      = none :=
  have h := C7_create_backend_error failingResource acceptAll routeCreateRequest
    CreateResponse.fresh "boom" (by decide) (by decide) (by decide)
  ⟨h.1, by decide, h.2.2.2⟩

end alertmanagerResource

/-! ## C8, C9: Update -/

namespace alertmanagerResource

/-- The callback Update makes no backend call, whatever its arguments. -/
theorem Update_calls_nothing (r : alertmanagerResource)
    (accept : alertmanagerResourceModelV0 → Diagnostics) (req : UpdateRequest)
    (resp : UpdateResponse) : (Update r accept req resp).2 = [] := by
  unfold Update
  cases h : Diagnostics.HasError (Diagnostics.Append resp.Diagnostics req.PlanDiags) <;>
    simp only [h, if_true, if_false, Bool.false_eq_true]

/-- When decoding reported no error and the host accepts the plan, Update stores
the plan exactly as it was decoded, id included. -/
theorem Update_persists_plan (r : alertmanagerResource)
    (accept : alertmanagerResourceModelV0 → Diagnostics) (req : UpdateRequest)
    (resp : UpdateResponse)
    (hplan : Diagnostics.HasError (Diagnostics.Append resp.Diagnostics req.PlanDiags) = false)
    (hacc : Diagnostics.HasError (accept req.Plan) = false) :
    (Update r accept req resp).1.State = some req.Plan := by
  unfold Update
  simp only [hplan, State.Set, hacc, if_false, Bool.false_eq_true]

/-- C8, evaluated on the code: for a changed plan, Update makes no backend call and
persists the plan, even on a backend whose push would fail, whereas Create on the
same plan pushes its config_yaml and decoded templates and persists nothing when
the push fails. -/
theorem C8_update_makes_no_push :
    (Update failingResource acceptAll changedUpdateRequest UpdateResponse.ofRoute).2 = [] ∧
    (Update failingResource acceptAll changedUpdateRequest UpdateResponse.ofRoute).1.State
      = some changedPlan ∧
    (Update failingResource acceptAll changedUpdateRequest
      UpdateResponse.ofRoute).1.Diagnostics = [] ∧
    (Create failingResource acceptAll { Plan := changedPlan, PlanDiags := [] }
      CreateResponse.fresh).2
      = [BackendCall.CreateAlertmanagerConfig "route: \x7breceiver: ops\x7d"
          [("default.tmpl", "body")]] ∧
    (Create failingResource acceptAll { Plan := changedPlan, PlanDiags := [] }
      CreateResponse.fresh).1.State = none := by
  decide

/-- C9, evaluated on the code: an Update of a resource whose prior id is
"alertmanager", with the plan the host supplies for a changed configuration (the
computed id unknown), finishes without any diagnostic and persists an id that is
neither "alertmanager" nor the empty string. -/
theorem C9_update_persists_plan_id :
    changedUpdateRequest.State.map (fun m => m.ID) = some (TfString.value "alertmanager") ∧
    (Update okResource acceptAll changedUpdateRequest UpdateResponse.ofRoute).1.Diagnostics
      = [] ∧
    (Update okResource acceptAll changedUpdateRequest UpdateResponse.ofRoute).1.State.map
      (fun m => m.ID) = some TfString.unknown ∧
    TfString.unknown ≠ TfString.value "alertmanager" ∧
    TfString.unknown ≠ TfString.value "" := by
  decide

end alertmanagerResource

/-! ## C10: Delete on backend success -/

namespace alertmanagerResource

/-- When the backend delete succeeds, Delete calls the backend exactly once and
hands the zero model with the empty id to `State.Set`: the diagnostics of the
response are the ones it had before together with those of the host, and the
state is replaced by that model exactly when the host reports no error. -/
theorem Delete_backend_success (r : alertmanagerResource)
    (accept : alertmanagerResourceModelV0 → Diagnostics) (req : DeleteRequest)
    (resp : DeleteResponse)
    (hdel : r.client.DeleteAlermanagerConfig = none) :
    (Delete r accept req resp).2 = [BackendCall.DeleteAlermanagerConfig] ∧
    (Delete r accept req resp).1.Diagnostics
      = Diagnostics.Append resp.Diagnostics (accept deletedModel) ∧
    (Diagnostics.HasError (accept deletedModel) = false →
      (Delete r accept req resp).1.State
        = some { ID := TfString.value ""
                 Config_yaml := TfString.null
                 Templates_config_yaml := TfMap.zero }) ∧
    (Diagnostics.HasError (accept deletedModel) = true →
      (Delete r accept req resp).1.State = resp.State ∧
      Diagnostics.HasError (Delete r accept req resp).1.Diagnostics = true) := by
  have hdiags : (State.Set accept resp.State deletedModel).2 = accept deletedModel := by
    cases h : Diagnostics.HasError (accept deletedModel) <;>
      simp only [State.Set, h, if_true, if_false, Bool.false_eq_true]
  have hrun : Delete r accept req resp
      = ({ State := (State.Set accept resp.State deletedModel).1
           Diagnostics := Diagnostics.Append resp.Diagnostics (accept deletedModel) },
          [BackendCall.DeleteAlermanagerConfig]) := by
    rw [← hdiags]
    unfold Delete
    simp only [hdel]
    rfl
  rw [hrun]
  refine ⟨rfl, rfl, fun hacc => ?_, fun hrej => ⟨?_, ?_⟩⟩
  · show (State.Set accept resp.State deletedModel).1 = _
    simp only [State.Set, hacc, if_false, Bool.false_eq_true]
    rfl
  · show (State.Set accept resp.State deletedModel).1 = _
    simp only [State.Set, hrej, if_true]
  · show Diagnostics.HasError (Diagnostics.Append resp.Diagnostics (accept deletedModel)) = _
    rw [Diagnostics.HasError_Append, hrej, Bool.or_true]

/-- The host framework rejects the model that Delete hands to `State.Set`, because
its map has no element type. -/
theorem schemaAccept_rejects_deletedModel :
    Diagnostics.HasError (schemaAccept deletedModel) = true := by
  decide

/-- For every resource whose backend delete succeeds and every prior state, Delete
on the host framework ends with an error diagnostic and leaves the state as it
was. -/
theorem Delete_on_host_keeps_state (r : alertmanagerResource) (req : DeleteRequest)
    (resp : DeleteResponse) (hdel : r.client.DeleteAlermanagerConfig = none) :
    (Delete r schemaAccept req resp).1.State = resp.State ∧
    Diagnostics.HasError (Delete r schemaAccept req resp).1.Diagnostics = true :=
  (Delete_backend_success r schemaAccept req resp hdel).2.2.2
    schemaAccept_rejects_deletedModel

/-- C10, evaluated on the code: the prior state has id "alertmanager" and the
backend delete succeeds.  Delete calls the backend, then hands to `State.Set` a
zero-valued model whose map has no element type; the host rejects it with a
conversion error, so the callback ends with an error diagnostic and the persisted
state still holds the id "alertmanager" with its configuration and templates. -/
theorem C10_delete_rejected_by_state_set :
    okResource.client.DeleteAlermanagerConfig = none ∧
    (Delete okResource schemaAccept { State := some routeState } DeleteResponse.ofRoute).2
      = [BackendCall.DeleteAlermanagerConfig] ∧
    deletedModel.Templates_config_yaml = TfMap.zero ∧
    (Delete okResource schemaAccept { State := some routeState }
      DeleteResponse.ofRoute).1.Diagnostics = [untypedMapError] ∧
    untypedMapError.severity = Severity.Error ∧
    (Delete okResource schemaAccept { State := some routeState }
      DeleteResponse.ofRoute).1.State = some routeState ∧
    routeState.ID = TfString.value "alertmanager" ∧
    (Delete okResource schemaAccept { State := some routeState }
      DeleteResponse.ofRoute).1.State.map (fun m => m.ID) ≠ some (TfString.value "") := by
  decide

end alertmanagerResource

/-! ## C11: Delete on backend failure -/

namespace alertmanagerResource

/-- C11: when the backend delete returns the error e, Delete calls the backend
once, records the error diagnostic whose detail is "Original Error: " followed by
the text of e, and returns with the response state exactly as the host passed it,
which is the prior state, so a later Delete can try again. -/
theorem C11_delete_backend_error (r : alertmanagerResource)
    (accept : alertmanagerResourceModelV0 → Diagnostics) (req : DeleteRequest)
    (resp : DeleteResponse) (e : String)
    (hdel : r.client.DeleteAlermanagerConfig = some e) :
    (Delete r accept req resp).2 = [BackendCall.DeleteAlermanagerConfig] ∧
    (Delete r accept req resp).1.Diagnostics
      = Diagnostics.Append resp.Diagnostics [deleteErrorDiagnostic e] ∧
    deleteErrorDiagnostic e ∈ (Delete r accept req resp).1.Diagnostics ∧
    (deleteErrorDiagnostic e).severity = Severity.Error ∧
    (deleteErrorDiagnostic e).detail = "Original Error: " ++ e ∧
    (Delete r accept req resp).1.State = resp.State ∧
    (resp.State = req.State → (Delete r accept req resp).1.State = req.State) := by
  have hrun : Delete r accept req resp
      = ({ State := resp.State
           Diagnostics := Diagnostics.Append resp.Diagnostics [deleteErrorDiagnostic e] },
          [BackendCall.DeleteAlermanagerConfig]) := by
    unfold Delete
    simp only [hdel]
    rfl
  rw [hrun]
  refine ⟨rfl, rfl, ?_, rfl, rfl, rfl, fun h => h⟩
  exact (Diagnostics.mem_Append _ _ _).2 (Or.inr (List.mem_singleton.2 rfl))

/-- C11 at a concrete input: the prior state has id "alertmanager" and the backend
answers the delete with the error "gone"; the state keeps that id. -/
theorem C11_delete_backend_error_witness :
    failingResource.client.DeleteAlermanagerConfig = some "gone" ∧
    (Delete failingResource acceptAll { State := some routeState }
      DeleteResponse.ofRoute).1.Diagnostics = [deleteErrorDiagnostic "gone"] ∧
    (deleteErrorDiagnostic "gone").detail = "Original Error: gone" ∧
    (Delete failingResource acceptAll { State := some routeState }
      DeleteResponse.ofRoute).1.State = some routeState ∧
    routeState.ID = TfString.value "alertmanager" :=
  have h := C11_delete_backend_error failingResource acceptAll { State := some routeState }
    DeleteResponse.ofRoute "gone" rfl
  ⟨rfl, h.2.1, by decide, h.2.2.2.2.2.1, rfl⟩

end alertmanagerResource

/-! ## C12: Read -/

namespace alertmanagerResource

/-- The callback Read returns the response as it received it and makes no backend
call, for every resource, request and response. -/
theorem Read_changes_nothing (r : alertmanagerResource) (req : ReadRequest)
    (resp : ReadResponse) : Read r req resp = (resp, []) := rfl

/-- C12, evaluated on the code: a Read of a resource whose state is present makes
no backend call, so it cannot learn that the configuration is gone, and it leaves
the resource in the state; a Read of an absent resource leaves it absent. -/
theorem C12_read_never_removes :
    (Read okResource ReadRequest.ofRoute ReadResponse.ofRoute).2 = [] ∧
    (Read okResource ReadRequest.ofRoute ReadResponse.ofRoute).1.State = some routeState ∧
    (Read failingResource ReadRequest.ofRoute ReadResponse.ofRoute).1.State
      = some routeState ∧
    (Read okResource { State := none } ReadResponse.absent).1.State = none := by
  decide

end alertmanagerResource

/-! ## C13, C14: decoding of the templates in Create -/

theorem decodeElements_none_of_mem (elems : List (String × TfString))
    (kv : String × TfString) (hmem : kv ∈ elems) (hbad : ∀ s, kv.2 ≠ TfString.value s) :
    decodeElements elems = none := by
  induction elems with
  | nil => exact absurd hmem (List.not_mem_nil _)
  | cons x xs ih =>
    obtain ⟨k, v⟩ := x
    cases v with
    | null => rfl
    | unknown => rfl
    | value s =>
      rcases List.mem_cons.1 hmem with h | h
      · exact absurd (congrArg Prod.snd h) (hbad s)
      · simp only [decodeElements, ih h, Option.map_none']

theorem ElementsAs_error_of_undecodable (m : TfMap) (target : List (String × String))
    (hbad : m = TfMap.unknown ∨
      ∃ elems, m = TfMap.value elems ∧ ∃ kv ∈ elems, ∀ s, kv.2 ≠ TfString.value s) :
    ∃ what, m.ElementsAs target = (target, [conversionError what]) := by
  rcases hbad with h | ⟨elems, h, kv, hmem, hkv⟩
  · exact ⟨_, by rw [h]; rfl⟩
  · refine ⟨"Received null or unknown element value", ?_⟩
    rw [h]
    simp only [TfMap.ElementsAs, decodeElements_none_of_mem elems kv hmem hkv]

namespace alertmanagerResource

theorem Create_decode_error (r : alertmanagerResource)
    (accept : alertmanagerResourceModelV0 → Diagnostics) (req : CreateRequest)
    (resp : CreateResponse)
    (hplan : Diagnostics.HasError (Diagnostics.Append resp.Diagnostics req.PlanDiags) = false)
    (hdec : Diagnostics.HasError (req.Plan.Templates_config_yaml.ElementsAs []).2 = true) :
    Create r accept req resp
      = ({ State := resp.State
           Diagnostics := Diagnostics.Append
            (Diagnostics.Append resp.Diagnostics req.PlanDiags)
            (req.Plan.Templates_config_yaml.ElementsAs []).2 }, []) := by
  have h2 : Diagnostics.HasError
      (Diagnostics.Append (Diagnostics.Append resp.Diagnostics req.PlanDiags)
        (req.Plan.Templates_config_yaml.ElementsAs []).2) = true := by
    rw [Diagnostics.HasError_Append, hplan, hdec]; rfl
  unfold Create
  simp only [hplan, h2, if_true, if_false, Bool.false_eq_true]

/-- C13: for every config_yaml, when the plan decodes without error and its
templates_config_yaml is null, decoding the templates yields the empty mapping and
no diagnostic, Create pushes the config_yaml with that empty mapping exactly once,
and when the push succeeds and the host accepts the new state, the persisted id is
"alertmanager" and the response has no error. -/
theorem C13_create_without_templates (r : alertmanagerResource)
    (accept : alertmanagerResourceModelV0 → Diagnostics) (req : CreateRequest)
    (resp : CreateResponse)
    (hplan : Diagnostics.HasError (Diagnostics.Append resp.Diagnostics req.PlanDiags) = false)
    (hnull : req.Plan.Templates_config_yaml = TfMap.null)
    (hpush : r.client.CreateAlertmanagerConfig req.Plan.Config_yaml.ValueString [] = none)
    (hacc : Diagnostics.HasError
      (accept { req.Plan with ID := TfString.value "alertmanager" }) = false) :
    req.Plan.Templates_config_yaml.ElementsAs [] = ([], []) ∧
    (Create r accept req resp).2
      = [BackendCall.CreateAlertmanagerConfig req.Plan.Config_yaml.ValueString []] ∧
    (Create r accept req resp).1.State
      = some { ID := TfString.value "alertmanager"
               Config_yaml := req.Plan.Config_yaml
               Templates_config_yaml := TfMap.null } ∧
    (Create r accept req resp).1.Diagnostics
      = Diagnostics.Append (Diagnostics.Append resp.Diagnostics req.PlanDiags)
          (accept { req.Plan with ID := TfString.value "alertmanager" }) ∧
    Diagnostics.HasError (Create r accept req resp).1.Diagnostics = false := by
  obtain ⟨plan, planDiags⟩ := req
  obtain ⟨id, cfg, tpl⟩ := plan
  simp only at hnull
  subst hnull
  have hdec : Diagnostics.HasError (TfMap.null.ElementsAs []).2 = false := rfl
  have hpush2 : r.client.CreateAlertmanagerConfig cfg.ValueString
      (TfMap.null.ElementsAs []).1 = none := hpush
  have hacc2 : Diagnostics.HasError (accept
      { ID := TfString.value "alertmanager", Config_yaml := cfg,
        Templates_config_yaml := TfMap.null }) = false := hacc
  have hset : State.Set accept resp.State
      { ID := TfString.value "alertmanager", Config_yaml := cfg,
        Templates_config_yaml := TfMap.null }
      = (some { ID := TfString.value "alertmanager", Config_yaml := cfg,
                Templates_config_yaml := TfMap.null },
         accept { ID := TfString.value "alertmanager", Config_yaml := cfg,
                  Templates_config_yaml := TfMap.null }) := by
    simp only [State.Set, hacc2, if_false, Bool.false_eq_true]
  rw [Create_push r accept _ resp hplan hdec]
  simp only [hpush2]
  refine ⟨rfl, rfl, ?_, ?_, ?_⟩
  · show (State.Set accept resp.State _).1 = _
    rw [hset]
  · show Diagnostics.Append (Diagnostics.Append (Diagnostics.Append resp.Diagnostics planDiags) [])
      (State.Set accept resp.State _).2 = _
    rw [hset, Diagnostics.Append_nil]
  · show Diagnostics.HasError (Diagnostics.Append
      (Diagnostics.Append (Diagnostics.Append resp.Diagnostics planDiags) [])
      (State.Set accept resp.State _).2) = false
    rw [hset, Diagnostics.Append_nil, Diagnostics.HasError_Append]
    simp only [hacc2, Bool.or_false]
    exact hplan

end alertmanagerResource

namespace alertmanagerResource

/-- C13 at a concrete input: config_yaml is "route: {}" and the plan has no
templates; the backend receives that configuration with an empty mapping and the
persisted id is "alertmanager". -/
theorem C13_create_without_templates_witness :
    Diagnostics.HasError (Diagnostics.Append CreateResponse.fresh.Diagnostics
        noTemplatesCreateRequest.PlanDiags) = false ∧
    noTemplatesCreateRequest.Plan.Templates_config_yaml = TfMap.null ∧
    (Create okResource acceptAll noTemplatesCreateRequest CreateResponse.fresh).2
      = [BackendCall.CreateAlertmanagerConfig "route: \x7b\x7d" []] ∧
    (Create okResource acceptAll noTemplatesCreateRequest CreateResponse.fresh).1.State
      = some { ID := TfString.value "alertmanager"
               Config_yaml := TfString.value "route: \x7b\x7d"
               Templates_config_yaml := TfMap.null } ∧
    Diagnostics.HasError
      (Create okResource acceptAll noTemplatesCreateRequest CreateResponse.fresh).1.Diagnostics
        = false :=
  have h := C13_create_without_templates okResource acceptAll noTemplatesCreateRequest
    CreateResponse.fresh (by decide) rfl rfl (by decide)
  ⟨by decide, rfl, h.2.1, h.2.2.1, h.2.2.2.2⟩

/-- C14: when the plan decodes without error but its templates_config_yaml is
unknown or holds an element that is not a known string, Create records an error
diagnostic (the conversion error of the decoding), makes no backend call at all,
and returns with the response state exactly as it was. -/
theorem C14_create_undecodable_templates (r : alertmanagerResource)
    (accept : alertmanagerResourceModelV0 → Diagnostics) (req : CreateRequest)
    (resp : CreateResponse)
    (hplan : Diagnostics.HasError (Diagnostics.Append resp.Diagnostics req.PlanDiags) = false)
    (hbad : req.Plan.Templates_config_yaml = TfMap.unknown ∨
      ∃ elems, req.Plan.Templates_config_yaml = TfMap.value elems ∧
        ∃ kv ∈ elems, ∀ s, kv.2 ≠ TfString.value s) :
    (Create r accept req resp).2 = [] ∧
    (Create r accept req resp).1.State = resp.State ∧
    Diagnostics.HasError (Create r accept req resp).1.Diagnostics = true ∧
    (∃ d ∈ (Create r accept req resp).1.Diagnostics,
      d.severity = Severity.Error ∧ d.summary = "Value Conversion Error") := by
  obtain ⟨what, hwhat⟩ := ElementsAs_error_of_undecodable _ [] hbad
  have hdec : Diagnostics.HasError (req.Plan.Templates_config_yaml.ElementsAs []).2 = true := by
    rw [hwhat]; rfl
  rw [Create_decode_error r accept req resp hplan hdec]
  refine ⟨rfl, rfl, ?_, conversionError what, ?_, rfl, rfl⟩
  · show Diagnostics.HasError (Diagnostics.Append _ _) = true
    rw [Diagnostics.HasError_Append, hdec, Bool.or_true]
  · show conversionError what ∈ Diagnostics.Append _ _
    rw [hwhat]
    exact (Diagnostics.mem_Append _ _ _).2 (Or.inr (List.mem_singleton.2 rfl))

/-- C14 at a concrete input: one of two templates is not yet known; nothing is
pushed, not even the known template, and no state is stored. -/
theorem C14_create_undecodable_templates_witness :
    Diagnostics.HasError (Diagnostics.Append CreateResponse.fresh.Diagnostics
        unknownTemplateCreateRequest.PlanDiags) = false ∧
    unknownTemplateCreateRequest.Plan.Templates_config_yaml
      = TfMap.value [("default.tmpl", TfString.value "body"),
          ("late.tmpl", TfString.unknown)] ∧
    (Create okResource acceptAll unknownTemplateCreateRequest CreateResponse.fresh).2 = [] ∧
    (Create okResource acceptAll unknownTemplateCreateRequest CreateResponse.fresh).1.State
      = none ∧
    Diagnostics.HasError (Create okResource acceptAll unknownTemplateCreateRequest
      CreateResponse.fresh).1.Diagnostics = true :=
  have h := C14_create_undecodable_templates okResource acceptAll
    unknownTemplateCreateRequest CreateResponse.fresh (by decide)
    (Or.inr ⟨_, rfl, ("late.tmpl", TfString.unknown), by decide,
      fun _ h => TfString.noConfusion h⟩)
  ⟨by decide, rfl, h.1, h.2.1, h.2.2.1⟩

end alertmanagerResource

/-! ## C15: the log records of Configure -/

namespace mimirtoolProvider

/-- A record emitted with the logging context of Configure does not depend on the
auth token that was attached to it. -/
theorem record_loggingCtx_token (level : LogLevel) (ctx : LogCtx)
    (address tenantID tok1 tok2 msg : String) (additional : List (String × String)) :
    tflog.record level (loggingCtx ctx address tenantID tok1) msg additional
      = tflog.record level (loggingCtx ctx address tenantID tok2) msg additional := by
  simp [tflog.record, loggingCtx, tflog.SetField, tflog.MaskFieldValuesWithFieldKeys]

/-- In a record emitted with the logging context of Configure, every field with
the key auth_token holds the mask. -/
theorem record_loggingCtx_masked (level : LogLevel) (ctx : LogCtx)
    (address tenantID tok msg : String) (additional : List (String × String))
    (kv : String × String)
    (hmem : kv ∈ (tflog.record level (loggingCtx ctx address tenantID tok) msg
      additional).fields)
    (hkey : kv.1 = "auth_token") : kv.2 = "***" := by
  simp only [tflog.record, List.mem_map] at hmem
  obtain ⟨kv0, _, hkv⟩ := hmem
  by_cases hm : kv0.1 ∈ (loggingCtx ctx address tenantID tok).maskedKeys
  · rw [if_pos hm] at hkv
    rw [← hkv]
  · rw [if_neg hm] at hkv
    rw [← hkv] at hkey
    exact absurd (by simp [loggingCtx, tflog.MaskFieldValuesWithFieldKeys, hkey]) hm

/-- The log records of a run that stops before the client is constructed. -/
theorem logRecords_Configure_abort (New : mimirtool.Config → Except String MimirClient)
    (env : Environ) (ctx : LogCtx) (req : ConfigureRequest) (resp : ConfigureResponse)
    (h : Diagnostics.HasError (Diagnostics.Append resp.Diagnostics req.GetDiags) = true ∨
      (resolveLocals req.Config env).address = "") :
    logRecords (Configure New env ctx req resp).2
      = [tflog.Debug ctx "Configuring provider" []] := by
  cases hdec : Diagnostics.HasError (Diagnostics.Append resp.Diagnostics req.GetDiags)
  · have haddr : (resolveLocals req.Config env).address = "" := by
      rcases h with h | h
      · rw [hdec] at h; exact Bool.noConfusion h
      · exact h
    cases hunk : req.Config.Address.IsUnknown
    · rw [Configure_missing_address New env ctx req resp hdec hunk haddr]; rfl
    · rw [Configure_unknown_address New env ctx req resp hdec hunk]; rfl
  · rw [Configure_decode_error New env ctx req resp hdec]; rfl

/-- The log records of a run that reaches the client constructor. -/
theorem logRecords_Configure_reach (New : mimirtool.Config → Except String MimirClient)
    (env : Environ) (ctx : LogCtx) (req : ConfigureRequest) (resp : ConfigureResponse)
    (hdec : Diagnostics.HasError (Diagnostics.Append resp.Diagnostics req.GetDiags) = false)
    (haddr : (resolveLocals req.Config env).address ≠ "") :
    logRecords (Configure New env ctx req resp).2
      = tflog.Debug ctx "Configuring provider" [] ::
        tflog.Debug (loggingCtx ctx (resolveLocals req.Config env).address
          (resolveLocals req.Config env).tenantID (resolveLocals req.Config env).authToken)
          "Creating Mimirtool client" [] ::
        (if (New (clientConfig (resolveLocals req.Config env))).isOk = true then
          [tflog.Info (loggingCtx ctx (resolveLocals req.Config env).address
            (resolveLocals req.Config env).tenantID (resolveLocals req.Config env).authToken)
            "Configured Mimirtool client" [("success", "true")]]
        else []) := by
  have hunk : req.Config.Address.IsUnknown = false := by
    cases h : req.Config.Address.IsUnknown
    · rfl
    · exact absurd (address_empty_of_unknown req.Config env h) haddr
  unfold Configure
  simp only [hdec, hunk, haddr, if_false, Bool.false_eq_true]
  cases New (clientConfig (resolveLocals req.Config env)) <;> rfl

end mimirtoolProvider

namespace mimirtoolProvider

/-- C15: take two runs of Configure with the same constructor, logging context,
response and decoding diagnostics, whose resolved settings agree in every field
except the auth token and the API key, and on which the client constructor
succeeds or fails alike.  They emit the same sequence of log records.  Moreover, in
every run, each record after the opening "Configuring provider" record (emitted
with the context as the host passed it) shows the mask in every field with the key
auth_token. -/
theorem C15_logs_hide_credentials (New : mimirtool.Config → Except String MimirClient)
    (env1 env2 : Environ) (ctx : LogCtx) (req1 req2 : ConfigureRequest)
    (resp : ConfigureResponse)
    (hdiags : req1.GetDiags = req2.GetDiags)
    (hsame : { resolveLocals req1.Config env1 with
        authToken := (resolveLocals req2.Config env2).authToken
        apiKey := (resolveLocals req2.Config env2).apiKey } = resolveLocals req2.Config env2)
    (hnew : (New (clientConfig (resolveLocals req1.Config env1))).isOk
      = (New (clientConfig (resolveLocals req2.Config env2))).isOk) :
    logRecords (Configure New env1 ctx req1 resp).2
      = logRecords (Configure New env2 ctx req2 resp).2 ∧
    ∃ rest, logRecords (Configure New env1 ctx req1 resp).2
        = tflog.Debug ctx "Configuring provider" [] :: rest ∧
      ∀ r ∈ rest, ∀ kv ∈ r.fields, kv.1 = "auth_token" → kv.2 = "***" := by
  have haddr : (resolveLocals req1.Config env1).address
      = (resolveLocals req2.Config env2).address := by
    have h := congrArg ConfigureLocals.address hsame
    exact h
  have hten : (resolveLocals req1.Config env1).tenantID
      = (resolveLocals req2.Config env2).tenantID := by
    have h := congrArg ConfigureLocals.tenantID hsame
    exact h
  cases hdec : Diagnostics.HasError (Diagnostics.Append resp.Diagnostics req1.GetDiags)
  · by_cases ha : (resolveLocals req1.Config env1).address = ""
    · rw [logRecords_Configure_abort New env1 ctx req1 resp (Or.inr ha),
        logRecords_Configure_abort New env2 ctx req2 resp (Or.inr (haddr ▸ ha))]
      exact ⟨rfl, [], rfl, fun r hr => absurd hr (List.not_mem_nil r)⟩
    · rw [logRecords_Configure_reach New env1 ctx req1 resp hdec ha,
        logRecords_Configure_reach New env2 ctx req2 resp (hdiags ▸ hdec) (haddr ▸ ha)]
      refine ⟨?_, _, rfl, ?_⟩
      · rw [← haddr, ← hten, ← hnew]
        simp only [tflog.Debug, tflog.Info]
        rw [record_loggingCtx_token LogLevel.Debug ctx _ _
            (resolveLocals req1.Config env1).authToken
            (resolveLocals req2.Config env2).authToken,
          record_loggingCtx_token LogLevel.Info ctx _ _
            (resolveLocals req1.Config env1).authToken
            (resolveLocals req2.Config env2).authToken]
      · intro r hr kv hkv hkey
        rcases List.mem_cons.1 hr with h | h
        · rw [h] at hkv
          exact record_loggingCtx_masked _ _ _ _ _ _ _ kv hkv hkey
        · split at h
          · rw [List.mem_singleton.1 h] at hkv
            exact record_loggingCtx_masked _ _ _ _ _ _ _ kv hkv hkey
          · exact absurd h (List.not_mem_nil r)
  · rw [logRecords_Configure_abort New env1 ctx req1 resp (Or.inl hdec),
      logRecords_Configure_abort New env2 ctx req2 resp (Or.inl (hdiags ▸ hdec))]
    exact ⟨rfl, [], rfl, fun r hr => absurd hr (List.not_mem_nil r)⟩

/-- C15 at a concrete input: two environments that give the same address and
tenant but different auth tokens and API keys, from different tiers; both runs emit
the same three records. -/
theorem C15_logs_hide_credentials_witness :
    (resolveLocals nullRequest.Config secretEnvA).authToken = "token-one" ∧
    (resolveLocals nullRequest.Config secretEnvB).authToken = "token-two" ∧
    (resolveLocals nullRequest.Config secretEnvA).apiKey = "key-one" ∧
    (resolveLocals nullRequest.Config secretEnvB).apiKey = "key-two" ∧
    logRecords (Configure okNew secretEnvA hostCtx nullRequest ConfigureResponse.fresh).2
      = logRecords (Configure okNew secretEnvB hostCtx nullRequest ConfigureResponse.fresh).2 ∧
    (logRecords (Configure okNew secretEnvA hostCtx nullRequest
      ConfigureResponse.fresh).2).length = 3 :=
  have h := C15_logs_hide_credentials okNew secretEnvA secretEnvB hostCtx nullRequest
    nullRequest ConfigureResponse.fresh rfl (by decide) rfl
  ⟨by decide, by decide, by decide, by decide, h.1, by decide⟩

end mimirtoolProvider

/-! ## C16: the path prefixes -/

namespace mimirtoolProvider

/-- The argument of the client constructor is the same whatever the two resolved
path prefixes are. -/
theorem clientConfig_ignores_prefixes (l : ConfigureLocals) (p a : String) :
    clientConfig { l with prometheusHTTPPrefix := p, alertmanagerHTTPPrefix := a }
      = clientConfig l := rfl

/-- C16, evaluated on the code: two runs that differ only in the configured
Alertmanager path prefix resolve different prefixes, yet both call the client
constructor with one and the same configuration. -/
theorem C16_prefixes_not_passed_to_client :
    (resolveLocals prefixRequestOne.Config tiersEnv).alertmanagerHTTPPrefix = "/am-one" ∧
    (resolveLocals prefixRequestTwo.Config tiersEnv).alertmanagerHTTPPrefix = "/am-two" ∧
    newClientCalls (Configure okNew tiersEnv emptyCtx prefixRequestOne
        ConfigureResponse.fresh).2
      = newClientCalls (Configure okNew tiersEnv emptyCtx prefixRequestTwo
        ConfigureResponse.fresh).2 ∧
    (newClientCalls (Configure okNew tiersEnv emptyCtx prefixRequestOne
        ConfigureResponse.fresh).2).length = 1 := by
  decide

end mimirtoolProvider

/-! ## C17: the outcome of the client constructor -/

theorem Diagnostics.filter_error_of_error_free (ds : Diagnostics)
    (h : Diagnostics.HasError ds = false) :
    ds.filter (fun d => decide (d.severity = Severity.Error)) = [] := by
  rw [List.filter_eq_nil_iff]
  intro d hd hsev
  exact Diagnostics.not_mem_of_error_free ds d h (of_decide_eq_true hsev) hd

namespace mimirtoolProvider

/-- C17: when decoding reported no error and the resolved address is not empty, the
outcome of the client constructor decides the rest.  If it returns the error e, the
diagnostics become the earlier ones followed by one client-construction diagnostic,
which is the only error among them and whose detail ends with the text of e, and
ResourceData and DataSourceData keep the value the host passed.  If it returns a
client, the diagnostics are the earlier ones with nothing added, and ResourceData
and DataSourceData both hold that client. -/
theorem C17_client_constructor_outcome (New : mimirtool.Config → Except String MimirClient)
    (env : Environ) (ctx : LogCtx) (req : ConfigureRequest) (resp : ConfigureResponse)
    (hdec : Diagnostics.HasError (Diagnostics.Append resp.Diagnostics req.GetDiags) = false)
    (haddr : precedence req.Config.Address (env "MIMIRTOOL_ADDRESS") (env "MIMIR_ADDRESS")
      ≠ "") :
    (∀ e, New (clientConfig (resolveLocals req.Config env)) = Except.error e →
      (Configure New env ctx req resp).1.Diagnostics
        = Diagnostics.Append resp.Diagnostics req.GetDiags ++ [clientErrorDiagnostic e] ∧
      (Configure New env ctx req resp).1.Diagnostics.filter
          (fun d => decide (d.severity = Severity.Error)) = [clientErrorDiagnostic e] ∧
      (∃ before : String, (clientErrorDiagnostic e).detail = before ++ e) ∧
      (Configure New env ctx req resp).1.ResourceData = resp.ResourceData ∧
      (Configure New env ctx req resp).1.DataSourceData = resp.DataSourceData) ∧
    (∀ c, New (clientConfig (resolveLocals req.Config env)) = Except.ok c →
      (Configure New env ctx req resp).1.Diagnostics
        = Diagnostics.Append resp.Diagnostics req.GetDiags ∧
      (Configure New env ctx req resp).1.ResourceData = some c ∧
      (Configure New env ctx req resp).1.DataSourceData = some c) := by
  rw [← resolveLocals_address] at haddr
  have hunk : req.Config.Address.IsUnknown = false := by
    cases h : req.Config.Address.IsUnknown
    · rfl
    · exact absurd (address_empty_of_unknown req.Config env h) haddr
  constructor
  · intro e he
    have hnot := Diagnostics.not_mem_of_error_free _ (clientErrorDiagnostic e) hdec rfl
    have hrun : (Configure New env ctx req resp).1
        = { resp with
            Diagnostics := Diagnostics.Append
              (Diagnostics.Append resp.Diagnostics req.GetDiags) [clientErrorDiagnostic e] } := by
      unfold Configure
      simp only [hdec, hunk, haddr, he, if_false, Bool.false_eq_true]
      rfl
    rw [hrun]
    simp only [Diagnostics.Append_singleton_of_not_mem _ _ hnot]
    refine ⟨trivial, ?_, ?_, trivial, trivial⟩
    · rw [List.filter_append, Diagnostics.filter_error_of_error_free _ hdec]
      rfl
    · exact ⟨"An unexpected error occurred when creating the Mimirtool API client. " ++
        "If the error is not clear, please contact the provider developers.\n\n" ++
        "Mimirtool Client Error: ", rfl⟩
  · intro c hc
    have hrun : (Configure New env ctx req resp).1
        = { Diagnostics := Diagnostics.Append resp.Diagnostics req.GetDiags
            DataSourceData := some c
            ResourceData := some c } := by
      unfold Configure
      simp only [hdec, hunk, haddr, hc, if_false, Bool.false_eq_true]
    rw [hrun]
    exact ⟨rfl, rfl, rfl⟩

end mimirtoolProvider

namespace mimirtoolProvider

/-- C17 at two concrete inputs: with a constructor that fails with "bad ca file"
the response holds exactly the client-construction diagnostic and no data; with a
constructor that succeeds it holds no diagnostic and the client in both fields. -/
theorem C17_client_constructor_outcome_witness :
    Diagnostics.HasError
        (Diagnostics.Append ConfigureResponse.fresh.Diagnostics nullRequest.GetDiags) = false ∧
    precedence nullRequest.Config.Address (tiersEnv "MIMIRTOOL_ADDRESS")
        (tiersEnv "MIMIR_ADDRESS") ≠ "" ∧
    (Configure failingNew tiersEnv emptyCtx nullRequest ConfigureResponse.fresh).1.Diagnostics
      = [clientErrorDiagnostic "bad ca file"] ∧
    (Configure failingNew tiersEnv emptyCtx nullRequest
      ConfigureResponse.fresh).1.ResourceData.isNone = true ∧
    (Configure failingNew tiersEnv emptyCtx nullRequest
      ConfigureResponse.fresh).1.DataSourceData.isNone = true ∧
    (Configure okNew tiersEnv emptyCtx nullRequest ConfigureResponse.fresh).1.Diagnostics
      = [] ∧
    (Configure okNew tiersEnv emptyCtx nullRequest ConfigureResponse.fresh).1.ResourceData
      = some okClient ∧
    (Configure okNew tiersEnv emptyCtx nullRequest ConfigureResponse.fresh).1.DataSourceData
      = some okClient :=
  have hfail := (C17_client_constructor_outcome failingNew tiersEnv emptyCtx nullRequest
    ConfigureResponse.fresh (by decide) (by decide)).1 "bad ca file" rfl
  have hok := (C17_client_constructor_outcome okNew tiersEnv emptyCtx nullRequest
    ConfigureResponse.fresh (by decide) (by decide)).2 okClient rfl
  ⟨by decide, by decide, hfail.1, by rw [hfail.2.2.2.1]; rfl, by rw [hfail.2.2.2.2]; rfl,
    hok.1, hok.2.1, hok.2.2⟩

end mimirtoolProvider

end Mimirtool
